import Mathlib

/-!
Shallow embedding of the WooSync reconciliation and batch-synchronization
engine (`src/woo_sync/models/woo_sync_cron.py`, `woo_sync_instance.py`,
`woo_sync_mapping.py`).

Modelling conventions:
* Odoo records become plain structures; record ids are `Nat`.
* The database tables of mapping records and log entries become lists inside
  a `DB` structure.  The SQL uniqueness constraints of
  `woo_sync_mapping.py` are modelled by checked insert operations that fail
  (raise) exactly when the constraint would be violated, as the Odoo ORM
  does at flush time.
* Stateful Python methods become functions in the monad
  `M α = RunState → Except String α × RunState`: exceptions carry the
  state reached so far (remote calls already issued are not undone by a
  Python exception; the caller decides whether to roll the DB back).
* Remote HTTP traffic is split into (a) a trace of issued calls, recorded
  in the state, and (b) an `Oracle` structure of response functions, one
  per endpoint, standing for the remote WooCommerce side.
* Python truthiness on optional strings / integers is modelled explicitly
  (`strTruthy`, `optNatTruthy`): `None`, `""` and `0` are falsy.
* Fields irrelevant to every claim are elided from payloads (descriptions,
  images, the `last_sync_date` timestamps); monetary values are `Int`
  (the `str(round (…,2))` formatting is not modelled).
-/

namespace WooSync

/-- ASCII whitespace, as stripped by Python `str.strip()`. -/
def isSpaceChar (c : Char) : Bool :=
  c == ' ' || c == '\t' || c == '\n' || c == '\r'

/-- Python `str.strip()` (whitespace on both ends). -/
def pyStrip (s : String) : String :=
  ⟨((s.data.dropWhile isSpaceChar).reverse.dropWhile isSpaceChar).reverse⟩

/-- Python truthiness of an optional string: `None` and `""` are falsy. -/
def strTruthy : Option String → Bool
  | some s => s ≠ ""
  | none => false

/-- Python truthiness of an optional integer: `None` and `0` are falsy. -/
def optNatTruthy : Option Nat → Bool
  | some n => n ≠ 0
  | none => false

/-- Python `a or b or ''` over optional strings (first truthy, else `""`). -/
def firstTruthy : List (Option String) → String
  | [] => ""
  | o :: rest => match o with
    | some s => if s ≠ "" then s else firstTruthy rest
    | none => firstTruthy rest

/-- Association-list lookup by `Nat` key (models a Python dict keyed by id). -/
def lookupNat (l : List (Nat × α)) (k : Nat) : Option α :=
  (l.find? (fun p => p.1 == k)).map (·.2)

/-- Association-list lookup by `String` key (models a Python dict keyed by SKU). -/
def lookupStr (l : List (String × α)) (k : String) : Option α :=
  (l.find? (fun p => p.1 == k)).map (·.2)

/-- Python `range(0, len l, n)` slicing: the list cut into chunks of size `n`.
With `n = 0` Python raises `ValueError` before any iteration, so no chunk is
produced; we model that as the empty chunk list.  The `fuel` argument (always
instantiated with the list length) only makes the recursion structural. -/
def chunkListF (n : Nat) : Nat → List α → List (List α)
  | _, [] => []
  | 0, _ :: _ => []
  | fuel + 1, a :: l =>
    if n = 0 then []
    else (a :: l).take n :: chunkListF n fuel ((a :: l).drop n)

def chunkList (n : Nat) (l : List α) : List (List α) := chunkListF n l.length l

-- -----------------------------------------------------------------------
-- Local catalog entities (read-only collaborators)
-- -----------------------------------------------------------------------

inductive StockSource where
  | glob
  | specific
deriving Repr, DecidableEq

inductive StockType where
  | qty_available
  | free_qty
  | virtual_available
deriving Repr, DecidableEq

/-- `product.attribute`. -/
structure Attr where
  id : Nat
  name : String
deriving Repr, DecidableEq

/-- `product.attribute.value`. -/
structure AttrValue where
  id : Nat
  name : String
deriving Repr, DecidableEq

/-- A `product.template.attribute.value` carried by a variant. -/
structure PTAV where
  attr : Attr
  value : AttrValue
deriving Repr, DecidableEq

/-- `product.category`: a tree node, parent embedded for structural recursion. -/
inductive Category where
  | mk (id : Nat) (name : String) (parent : Option Category)

def Category.cid : Category → Nat
  | .mk i _ _ => i

def Category.cname : Category → String
  | .mk _ n _ => n

def Category.parent : Category → Option Category
  | .mk _ _ p => p

/-- `product.product`.  The stock quantities visible through the two context
shapes used by `_get_product_qty` are embedded as functions: `qtyGlobal`
is the quantity with context `warehouse=False, location=False`, and
`qtyWh w` the quantity with context `warehouse=w, location=lot_stock(w)`. -/
structure Variant where
  id : Nat
  active : Bool := true
  barcode : Option String := none
  default_code : Option String := none
  list_price : Int := 0
  weight : Int := 0
  ptavs : List PTAV := []
  qtyGlobal : StockType → Int := fun _ => 0
  qtyWh : Nat → StockType → Int := fun _ _ => 0

/-- `product.template`. -/
structure Template where
  id : Nat
  active : Bool := true
  name : String := ""
  barcode : Option String := none
  default_code : Option String := none
  weight : Int := 0
  variants : List Variant := []
  attribute_lines : List (Attr × List AttrValue) := []
  categ : Option Category := none

-- -----------------------------------------------------------------------
-- Instance configuration (`woo.sync.instance`)
-- -----------------------------------------------------------------------

structure Instance where
  id : Nat
  batch_size : Nat := 100
  stock_source : StockSource := .glob
  stock_type : StockType := .qty_available
  warehouse_ids : List Nat := []
  sync_archived_as_draft : Bool := true
  default_woo_status : String := "publish"
  pricelist : Option (List (Nat × Int)) := none

/-- `WooSyncInstance._get_product_qty`. -/
def getProductQty (inst : Instance) (product : Variant) : Int :=
  match inst.stock_source with
  | .glob => product.qtyGlobal inst.stock_type
  | .specific =>
    if inst.warehouse_ids.isEmpty then 0
    else (inst.warehouse_ids.map
      (fun wh => product.qtyWh wh inst.stock_type)).sum

/-- `WooSyncInstance._get_product_price`: configured pricelist, else
the variant list price. -/
def getProductPrice (inst : Instance) (product : Variant) : Int :=
  match inst.pricelist with
  | some pl => (lookupNat pl product.id).getD 0
  | none => product.list_price

-- -----------------------------------------------------------------------
-- Mapping records (`woo_sync_mapping.py`)
-- -----------------------------------------------------------------------

structure TemplateMapping where
  mid : Nat
  instance_id : Nat
  product_tmpl_id : Nat
  woo_product_id : Nat
  woo_product_type : String
deriving Repr, DecidableEq

structure VariantMapping where
  instance_id : Nat
  template_mapping_id : Nat
  product_id : Nat
  woo_variation_id : Nat
deriving Repr, DecidableEq

structure CategoryMapping where
  instance_id : Nat
  category_id : Nat
  woo_category_id : Nat
deriving Repr, DecidableEq

structure AttributeMapping where
  instance_id : Nat
  attribute_id : Nat
  woo_attribute_id : Nat
deriving Repr, DecidableEq

structure ValueMapping where
  instance_id : Nat
  attribute_value_id : Nat
  woo_term_id : Nat
  woo_attribute_id : Nat
deriving Repr, DecidableEq

structure LogEntry where
  instance_id : Nat
  sync_type : String
  status : String
  product_tmpl_id : Option Nat := none
  message : String := ""
deriving Repr, DecidableEq

/-- The mapping-store and log tables. -/
structure DB where
  tmplMappings : List TemplateMapping := []
  varMappings : List VariantMapping := []
  catMappings : List CategoryMapping := []
  attrMappings : List AttributeMapping := []
  valMappings : List ValueMapping := []
  logs : List LogEntry := []
deriving Repr, DecidableEq

-- -----------------------------------------------------------------------
-- Remote side: payloads, calls, responses
-- -----------------------------------------------------------------------

/-- One line of the `attributes` list of a variable product payload. -/
structure AttrLinePayload where
  aid : Nat
  name : String
  position : Nat
  options : List String
deriving Repr, DecidableEq

/-- Payload of a product POST/PUT (descriptions and images elided). -/
structure ProductPayload where
  name : String := ""
  ptype : Option String := none
  sku : Option String := none
  regular_price : Option Int := none
  manage_stock : Option Bool := none
  stock_quantity : Option Int := none
  status : Option String := none
  weight : Int := 0
  categories : List Nat := []
  attributes : List AttrLinePayload := []
deriving Repr, DecidableEq

/-- Payload for one variation inside a batch call
(`_build_variation_data`); `vid` is the `id` key added on the update path. -/
structure VariationData where
  regular_price : Int := 0
  sku : String := ""
  stock_quantity : Int := 0
  weight : Int := 0
  attributes : List (Nat × String × String) := []
  vid : Option Nat := none
deriving Repr, DecidableEq

/-- Payload of a `variations/batch` call. -/
structure BatchPayload where
  create : List VariationData := []
  update : List VariationData := []
  delete : List Nat := []
deriving Repr, DecidableEq

/-- A remote API call issued by the engine (trace entry). -/
inductive RemoteCall where
  | postProducts (data : ProductPayload)
  | putProduct (wooId : Nat) (data : ProductPayload)
  | postVarBatch (productId : Nat) (payload : BatchPayload)
  | postCategory (name : String) (parent : Nat)
  | postAttr (name : String)
  | postTerm (attrId : Nat) (name : String)
  | getVariations (productId : Nat)
deriving Repr, DecidableEq

/-- Parsed JSON of an API response, restricted to the keys the engine reads:
`id`, `data.status` (for `_is_not_found`), and the per-item `id`s of the
`create` / `update` arrays of a batch response. -/
structure WooResult where
  rid : Option Nat := none
  dataStatus : Option Nat := none
  createIds : List (Option Nat) := []
  updateIds : List (Option Nat) := []
deriving Repr, DecidableEq

/-- `WooSyncCron._is_not_found`. -/
def isNotFound (result : WooResult) : Bool :=
  result.dataStatus == some 404

/-- A remote product as kept in the SKU index (`id`, `type`). -/
structure WooProduct where
  id : Nat
  ptype : String := "simple"
deriving Repr, DecidableEq

/-- The SKU → remote product index built by `_fetch_woo_sku_index`. -/
def SkuIndex := List (String × WooProduct)

/-- Responses of the remote WooCommerce side, one function per endpoint. -/
structure Oracle where
  postProducts : ProductPayload → WooResult
  putProduct : Nat → ProductPayload → WooResult
  postVarBatch : Nat → BatchPayload → WooResult
  postCategory : String → Nat → WooResult
  searchCategory : String → Nat → Option Nat
  postAttr : String → WooResult
  searchAttr : String → Option Nat
  postTerm : Nat → String → WooResult
  searchTerm : Nat → String → Option Nat
  fetchVariations : Nat → List (Nat × String)

/-- An oracle whose answers are all empty/failing (used for concrete runs
that never consult the relevant endpoint). -/
def trivialOracle : Oracle where
  postProducts := fun _ => {}
  putProduct := fun _ _ => {}
  postVarBatch := fun _ _ => {}
  postCategory := fun _ _ => {}
  searchCategory := fun _ _ => none
  postAttr := fun _ => {}
  searchAttr := fun _ => none
  postTerm := fun _ _ => {}
  searchTerm := fun _ _ => none
  fetchVariations := fun _ => []

-- -----------------------------------------------------------------------
-- Run state and monad
-- -----------------------------------------------------------------------

/-- The in-memory cache bundle of `_build_cache`. -/
structure Cache where
  tmpl_map : List (Nat × TemplateMapping) := []
  cat_map : List (Nat × Nat) := []
  attr_map : List (Nat × Nat) := []
  val_map : List (Nat × Nat) := []
  unmapped_tmpl_ids : List Nat := []

/-- Mutable state of one engine run: the database, the in-memory cache,
the trace of issued remote calls, and the id sequence for mapping records
(sequences do not roll back). -/
structure RunState where
  db : DB := {}
  cache : Cache := {}
  calls : List RemoteCall := []
  nextId : Nat := 1

/-- Stateful computations that may raise; an exception keeps the state
reached so far (remote calls are not undone by raising). -/
def M (α : Type) : Type := RunState → Except String α × RunState

instance : Monad M where
  pure a := fun s => (.ok a, s)
  bind x f := fun s =>
    match x s with
    | (.ok a, s1) => f a s1
    | (.error e, s1) => (.error e, s1)

def mThrow (e : String) : M α := fun s => (.error e, s)

def getS : M RunState := fun s => (.ok s, s)

def modifyS (f : RunState → RunState) : M Unit := fun s => (.ok (), f s)

/-- Python `try/except Exception` around a computation. -/
def attemptM (x : M α) : M (Except String α) := fun s =>
  match x s with
  | (.ok a, s1) => (.ok (.ok a), s1)
  | (.error e, s1) => (.ok (.error e), s1)

/-- Record one outgoing remote call in the trace. -/
def emit (c : RemoteCall) : M Unit :=
  modifyS fun s => { s with calls := s.calls ++ [c] }

/-- `WooSyncCron._create_log`. -/
def createLog (inst : Instance) (syncType status : String)
    (tmplId : Option Nat := none) (message : String := "") : M Unit :=
  modifyS fun s =>
    { s with db := { s.db with
        logs := s.db.logs ++
          [{ instance_id := inst.id, sync_type := syncType, status := status,
             product_tmpl_id := tmplId, message := message }] } }

-- -----------------------------------------------------------------------
-- Mapping-store writes (SQL uniqueness constraints checked at insert)
-- -----------------------------------------------------------------------

/-- `woo.sync.template.mapping.create`: fails when the
`instance_template_uniq` or `instance_woo_product_uniq` constraint would
be violated. -/
def createTemplateMapping (instId tmplId wooId : Nat) (ptype : String) :
    M TemplateMapping := fun s =>
  if s.db.tmplMappings.any
      (fun m => m.instance_id == instId && m.product_tmpl_id == tmplId) then
    (.error "instance_template_uniq", s)
  else if s.db.tmplMappings.any
      (fun m => m.instance_id == instId && m.woo_product_id == wooId) then
    (.error "instance_woo_product_uniq", s)
  else
    let m : TemplateMapping :=
      { mid := s.nextId, instance_id := instId, product_tmpl_id := tmplId,
        woo_product_id := wooId, woo_product_type := ptype }
    (.ok m, { s with
        nextId := s.nextId + 1,
        db := { s.db with tmplMappings := s.db.tmplMappings ++ [m] } })

/-- `woo.sync.variant.mapping.create` (constraint `instance_variant_uniq`). -/
def createVariantMapping (instId tmId productId wooVariationId : Nat) :
    M VariantMapping := fun s =>
  if s.db.varMappings.any
      (fun vm => vm.instance_id == instId && vm.product_id == productId) then
    (.error "instance_variant_uniq", s)
  else
    let vm : VariantMapping :=
      { instance_id := instId, template_mapping_id := tmId,
        product_id := productId, woo_variation_id := wooVariationId }
    (.ok vm, { s with
               db := { s.db with varMappings := s.db.varMappings ++ [vm] } })

/-- `woo.sync.category.mapping.create` (constraint `instance_category_uniq`). -/
def createCategoryMapping (instId categId wooCategId : Nat) : M Unit := fun s =>
  if s.db.catMappings.any
      (fun m => m.instance_id == instId && m.category_id == categId) then
    (.error "instance_category_uniq", s)
  else
    (.ok (), { s with db := { s.db with catMappings := s.db.catMappings ++
      [{ instance_id := instId, category_id := categId,
         woo_category_id := wooCategId }] } })

/-- `woo.sync.attribute.mapping.create` (constraint `instance_attribute_uniq`). -/
def createAttributeMapping (instId attrId wooAttrId : Nat) : M Unit := fun s =>
  if s.db.attrMappings.any
      (fun m => m.instance_id == instId && m.attribute_id == attrId) then
    (.error "instance_attribute_uniq", s)
  else
    (.ok (), { s with db := { s.db with attrMappings := s.db.attrMappings ++
      [{ instance_id := instId, attribute_id := attrId,
         woo_attribute_id := wooAttrId }] } })

/-- `woo.sync.attribute.value.mapping.create` (constraint `instance_attr_val_uniq`). -/
def createValueMapping (instId valId wooTermId wooAttrId : Nat) : M Unit := fun s =>
  if s.db.valMappings.any
      (fun m => m.instance_id == instId && m.attribute_value_id == valId) then
    (.error "instance_attr_val_uniq", s)
  else
    (.ok (), { s with db := { s.db with valMappings := s.db.valMappings ++
      [{ instance_id := instId, attribute_value_id := valId,
         woo_term_id := wooTermId, woo_attribute_id := wooAttrId }] } })

/-- `mapping.unlink()` on a template mapping: the variant mappings carry
`ondelete='cascade'` on `template_mapping_id`, so they are removed too. -/
def unlinkTemplateMapping (tmid : Nat) : M Unit :=
  modifyS fun s => { s with db := { s.db with
    tmplMappings := s.db.tmplMappings.filter (fun m => m.mid != tmid),
    varMappings :=
      s.db.varMappings.filter (fun vm => vm.template_mapping_id != tmid) } }

def cacheSetTmpl (tid : Nat) (m : TemplateMapping) : M Unit :=
  modifyS fun s =>
    { s with cache := { s.cache with tmpl_map := (tid, m) :: s.cache.tmpl_map } }

/-- `cache['tmpl_map'].pop(template.id, None)`. -/
def cachePopTmpl (tid : Nat) : M Unit :=
  modifyS fun s => { s with cache :=
    { s.cache with tmpl_map := s.cache.tmpl_map.filter (fun p => p.1 != tid) } }

-- -----------------------------------------------------------------------
-- Reconciliation: barcode matching (`_match_by_barcode`)
-- -----------------------------------------------------------------------

/-- The variant-barcode loop of `_match_by_barcode`. -/
def matchVariantsByBarcode (idx : SkuIndex) : List Variant → Option WooProduct
  | [] => none
  | v :: vs =>
    if strTruthy v.barcode then
      match lookupStr idx (pyStrip (v.barcode.getD "")) with
      | some p => some p
      | none => matchVariantsByBarcode idx vs
    else matchVariantsByBarcode idx vs

/-- `WooSyncCron._match_by_barcode`: template barcode first, then each
variant barcode, against the prefetched SKU index. -/
def matchByBarcode (template : Template) (idx : SkuIndex) : Option WooProduct :=
  if List.isEmpty idx then none
  else if strTruthy template.barcode then
    match lookupStr idx (pyStrip (template.barcode.getD "")) with
    | some p => some p
    | none => matchVariantsByBarcode idx template.variants
  else matchVariantsByBarcode idx template.variants

/-- `WooSyncCron._is_variable_product`. -/
def isVariableProduct (template : Template) : Bool :=
  !template.attribute_lines.isEmpty && decide (template.variants.length > 1)

/-- The reconciliation decision of §4.3, as read off
`_sync_one_template` / `_create_woo_product`. -/
inductive SyncDecision where
  | alreadyMapped (m : TemplateMapping)
  | matchFound (p : WooProduct)
  | createNew
deriving Repr, DecidableEq

def reconcileDecision (cache : Cache) (template : Template)
    (idx : SkuIndex) : SyncDecision :=
  match lookupNat cache.tmpl_map template.id with
  | some m => .alreadyMapped m
  | none =>
    match matchByBarcode template idx with
    | some p => .matchFound p
    | none => .createNew

-- -----------------------------------------------------------------------
-- Category / attribute / term resolution (`_ensure_*_synced`)
-- -----------------------------------------------------------------------

/-- `WooSyncCron._ensure_category_synced`: cache hit, else parent first,
then create-or-search, record mapping, update cache. -/
def ensureCategorySynced (inst : Instance) (o : Oracle) : Category → M Nat
  | .mk cid cname cparent => do
    let s ← getS
    let cached := lookupNat s.cache.cat_map cid
    if optNatTruthy cached then
      pure (cached.getD 0)
    else do
      let wooParent ←
        match cparent with
        | some p => ensureCategorySynced inst o p
        | none => pure 0
      emit (.postCategory cname wooParent)
      let result := o.postCategory cname wooParent
      let wooId? :=
        if optNatTruthy result.rid then result.rid
        else o.searchCategory cname wooParent
      if optNatTruthy wooId? then do
        let wooId := wooId?.getD 0
        createCategoryMapping inst.id cid wooId
        modifyS fun s2 => { s2 with cache :=
          { s2.cache with cat_map := (cid, wooId) :: s2.cache.cat_map } }
        pure wooId
      else mThrow "No se pudo crear categoria"

/-- `WooSyncCron._ensure_attribute_synced`. -/
def ensureAttributeSynced (inst : Instance) (o : Oracle) (attr : Attr) :
    M Nat := do
  let s ← getS
  let cached := lookupNat s.cache.attr_map attr.id
  if optNatTruthy cached then
    pure (cached.getD 0)
  else do
    emit (.postAttr attr.name)
    let result := o.postAttr attr.name
    let wooId? :=
      if optNatTruthy result.rid then result.rid else o.searchAttr attr.name
    if optNatTruthy wooId? then do
      let wooId := wooId?.getD 0
      createAttributeMapping inst.id attr.id wooId
      modifyS fun s2 => { s2 with cache :=
        { s2.cache with attr_map := (attr.id, wooId) :: s2.cache.attr_map } }
      pure wooId
    else mThrow "No se pudo crear atributo"

/-- `WooSyncCron._ensure_attribute_value_synced`. -/
def ensureAttributeValueSynced (inst : Instance) (o : Oracle)
    (attrValue : AttrValue) (wooAttrId : Nat) : M Nat := do
  let s ← getS
  let cached := lookupNat s.cache.val_map attrValue.id
  if optNatTruthy cached then
    pure (cached.getD 0)
  else do
    emit (.postTerm wooAttrId attrValue.name)
    let result := o.postTerm wooAttrId attrValue.name
    let wooId? :=
      if optNatTruthy result.rid then result.rid
      else o.searchTerm wooAttrId attrValue.name
    if optNatTruthy wooId? then do
      let wooId := wooId?.getD 0
      createValueMapping inst.id attrValue.id wooId wooAttrId
      modifyS fun s2 => { s2 with cache :=
        { s2.cache with val_map := (attrValue.id, wooId) :: s2.cache.val_map } }
      pure wooId
    else mThrow "No se pudo crear termino"

def ensureValuesSynced (inst : Instance) (o : Oracle) (wooAttrId : Nat) :
    List AttrValue → M Unit
  | [] => pure ()
  | v :: vs => do
    let _ ← ensureAttributeValueSynced inst o v wooAttrId
    ensureValuesSynced inst o wooAttrId vs

/-- `WooSyncCron._build_woo_attribute_lines` (the enumerated loop;
`idx` is the running `position`). -/
def buildWooAttributeLines (inst : Instance) (o : Oracle) (idx : Nat) :
    List (Attr × List AttrValue) → M (List AttrLinePayload)
  | [] => pure []
  | (attr, vals) :: rest => do
    let wooAttrId ← ensureAttributeSynced inst o attr
    ensureValuesSynced inst o wooAttrId vals
    let restLines ← buildWooAttributeLines inst o (idx + 1) rest
    pure ({ aid := wooAttrId, name := attr.name, position := idx,
            options := vals.map (·.name) } :: restLines)

/-- `WooSyncCron._get_woo_categories`. -/
def getWooCategories (inst : Instance) (o : Oracle) (template : Template) :
    M (List Nat) := do
  match template.categ with
  | some c => do
    let wooId ← ensureCategorySynced inst o c
    pure [wooId]
  | none => pure []

-- -----------------------------------------------------------------------
-- Variation payloads (`_build_variation_data`)
-- -----------------------------------------------------------------------

def buildVariationAttrs (inst : Instance) (o : Oracle) :
    List PTAV → M (List (Nat × String × String))
  | [] => pure []
  | p :: ps => do
    let wooAttrId ← ensureAttributeSynced inst o p.attr
    let rest ← buildVariationAttrs inst o ps
    pure ((wooAttrId, p.attr.name, p.value.name) :: rest)

/-- `WooSyncCron._build_variation_data`. -/
def buildVariationData (inst : Instance) (o : Oracle) (variant : Variant) :
    M VariationData := do
  let attrs ← buildVariationAttrs inst o variant.ptavs
  pure { regular_price := getProductPrice inst variant,
         sku := firstTruthy [variant.barcode, variant.default_code],
         stock_quantity := getProductQty inst variant,
         weight := variant.weight,
         attributes := attrs }

-- -----------------------------------------------------------------------
-- Product creation (`_create_simple_product`, `_create_variable_product`)
-- -----------------------------------------------------------------------

/-- `WooSyncCron._create_simple_product`: silently returns when the
template has no variant; otherwise POSTs, raises when no id comes back,
else records the template and variant mappings and a success log. -/
def createSimpleProduct (inst : Instance) (o : Oracle) (template : Template) :
    M Unit := do
  match template.variants.head? with
  | none => pure ()
  | some variant => do
    let cats ← getWooCategories inst o template
    let data : ProductPayload :=
      { name := template.name, ptype := some "simple",
        sku := some (firstTruthy [variant.barcode, variant.default_code]),
        regular_price := some (getProductPrice inst variant),
        manage_stock := some true,
        stock_quantity := some (getProductQty inst variant),
        weight := template.weight,
        status := some inst.default_woo_status,
        categories := cats }
    emit (.postProducts data)
    let result := o.postProducts data
    if optNatTruthy result.rid then do
      let wooId := result.rid.getD 0
      let tm ← createTemplateMapping inst.id template.id wooId "simple"
      cacheSetTmpl template.id tm
      let _ ← createVariantMapping inst.id tm.mid variant.id 0
      createLog inst "product" "success" (some template.id) "Creado simple"
    else mThrow "No se pudo crear"

/-- The `for idx, created in enumerate(result.get('create', []))` loop:
a variant mapping per returned id, matched by batch position, entries
without a truthy id silently skipped. -/
def recordCreatedVariantMappings (instId tmId : Nat) :
    List (Option Nat) → List Variant → M Unit
  | [], _ => pure ()
  | _, [] => pure ()
  | cid :: rest, v :: vs => do
    if optNatTruthy cid then do
      let _ ← createVariantMapping instId tmId v.id (cid.getD 0)
      recordCreatedVariantMappings instId tmId rest vs
    else
      recordCreatedVariantMappings instId tmId rest vs

/-- The create-batch loop shared by `_create_variable_product` and
`_update_variations`: one `variations/batch {create: …}` call per chunk. -/
def postCreateBatches (inst : Instance) (o : Oracle) (wooProductId tmId : Nat) :
    List (List (Variant × VariationData)) → M Unit
  | [] => pure ()
  | chunk :: rest => do
    let payload : BatchPayload := { create := chunk.map (·.2) }
    emit (.postVarBatch wooProductId payload)
    let result := o.postVarBatch wooProductId payload
    recordCreatedVariantMappings inst.id tmId result.createIds (chunk.map (·.1))
    postCreateBatches inst o wooProductId tmId rest

/-- The `variations_data` / `variant_list` accumulation loop. -/
def buildVariationsList (inst : Instance) (o : Oracle) :
    List Variant → M (List (Variant × VariationData))
  | [] => pure []
  | v :: vs => do
    let d ← buildVariationData inst o v
    let rest ← buildVariationsList inst o vs
    pure ((v, d) :: rest)

/-- `WooSyncCron._create_variable_product`. -/
def createVariableProduct (inst : Instance) (o : Oracle)
    (template : Template) : M Unit := do
  let attrs ← buildWooAttributeLines inst o 0 template.attribute_lines
  let cats ← getWooCategories inst o template
  let data : ProductPayload :=
    { name := template.name, ptype := some "variable",
      manage_stock := some false,
      status := some inst.default_woo_status,
      weight := template.weight,
      categories := cats,
      attributes := attrs }
  emit (.postProducts data)
  let result := o.postProducts data
  if optNatTruthy result.rid then do
    let wooId := result.rid.getD 0
    let tm ← createTemplateMapping inst.id template.id wooId "variable"
    cacheSetTmpl template.id tm
    let vds ← buildVariationsList inst o template.variants
    let batchSize := min inst.batch_size 100
    postCreateBatches inst o wooId tm.mid (chunkList batchSize vds)
    createLog inst "product" "success" (some template.id) "Creado variable"
  else mThrow "No se pudo crear variable"

-- -----------------------------------------------------------------------
-- Mapping an existing remote product (`_map_existing_woo_product`)
-- -----------------------------------------------------------------------

/-- The `woo_by_sku` dict of `_map_existing_variations`: SKU → variation id,
keys stripped, empty SKUs skipped, later entries overwriting earlier ones
(hence the reverse before first-match lookup). -/
def buildWooBySku (variations : List (Nat × String)) : List (String × Nat) :=
  (variations.reverse).filterMap fun wv =>
    if pyStrip wv.2 ≠ "" then some (pyStrip wv.2, wv.1) else none

/-- The variant loop of `_map_existing_variations`: local variants matched
to remote variations by barcode; unmatched variants stay unmapped. -/
def createMatchedVariantMappings (instId tmId : Nat)
    (wooBySku : List (String × Nat)) : List Variant → M Unit
  | [] => pure ()
  | v :: vs => do
    let barcode := pyStrip (v.barcode.getD "")
    if barcode ≠ "" then
      match lookupStr wooBySku barcode with
      | some wooVarId => do
        let _ ← createVariantMapping instId tmId v.id wooVarId
        createMatchedVariantMappings instId tmId wooBySku vs
      | none => createMatchedVariantMappings instId tmId wooBySku vs
    else createMatchedVariantMappings instId tmId wooBySku vs

/-- `WooSyncCron._map_existing_woo_product`: record a mapping pointing at
the existing remote id (no product-creation call), then map variations or
the single variant (sentinel variation id 0). -/
def mapExistingWooProduct (inst : Instance) (o : Oracle) (template : Template)
    (wooProduct : WooProduct) : M Unit := do
  let wooId := wooProduct.id
  let isWooVariable := wooProduct.ptype == "variable"
  let tm ← createTemplateMapping inst.id template.id wooId
    (if isWooVariable then "variable" else "simple")
  cacheSetTmpl template.id tm
  if isWooVariable then do
    emit (.getVariations wooId)
    let variations := o.fetchVariations wooId
    createMatchedVariantMappings inst.id tm.mid (buildWooBySku variations)
      template.variants
  else
    match template.variants.head? with
    | some v => do
      let _ ← createVariantMapping inst.id tm.mid v.id 0
      pure ()
    | none => pure ()
  createLog inst "product" "success" (some template.id)
    "Mapeado a WC existente por barcode"

/-- `WooSyncCron._create_woo_product`: barcode reconciliation first,
then the simple/variable creation path. -/
def createWooProduct (inst : Instance) (o : Oracle) (template : Template)
    (isVariable : Bool) (idx : SkuIndex) : M Unit := do
  match matchByBarcode template idx with
  | some existing => mapExistingWooProduct inst o template existing
  | none =>
    if isVariable then createVariableProduct inst o template
    else createSimpleProduct inst o template

-- -----------------------------------------------------------------------
-- Product update (`_update_woo_product`, `_update_variations`)
-- -----------------------------------------------------------------------

/-- The `data` dict of `_update_woo_product` (variable vs simple shape). -/
def buildUpdatePayload (inst : Instance) (o : Oracle) (template : Template)
    (variant : Variant) (isVariable : Bool) : M ProductPayload := do
  if isVariable then do
    let cats ← getWooCategories inst o template
    let attrs ← buildWooAttributeLines inst o 0 template.attribute_lines
    pure { name := template.name,
           status := some inst.default_woo_status,
           weight := template.weight,
           categories := cats,
           attributes := attrs }
  else do
    let cats ← getWooCategories inst o template
    pure { name := template.name,
           sku := some (firstTruthy [variant.barcode, variant.default_code]),
           regular_price := some (getProductPrice inst variant),
           manage_stock := some true,
           stock_quantity := some (getProductQty inst variant),
           status := some inst.default_woo_status,
           weight := template.weight,
           categories := cats }

/-- The partition loop of `_update_variations`: walk the live variants,
popping matching entries from the `existing_var_mappings` dict; an update
payload additionally carries the existing remote variation id.  Returns
(update list, create list, leftover mappings whose variant is gone). -/
def buildDiffLists (inst : Instance) (o : Oracle) :
    List VariantMapping → List Variant →
    M (List (VariantMapping × VariationData) ×
       List (Variant × VariationData) × List VariantMapping)
  | remaining, [] => pure ([], [], remaining)
  | remaining, v :: vs => do
    let d ← buildVariationData inst o v
    match remaining.find? (fun vm => vm.product_id == v.id) with
    | some vm => do
      let r ← buildDiffLists inst o
        (remaining.filter (fun vm2 => vm2.product_id != v.id)) vs
      pure ((vm, { d with vid := some vm.woo_variation_id }) :: r.1,
            r.2.1, r.2.2)
    | none => do
      let r ← buildDiffLists inst o remaining vs
      pure (r.1, (v, d) :: r.2.1, r.2.2)

/-- The update-batch loop of `_update_variations` (the response is only
consulted to refresh `last_sync_date`, which is elided). -/
def postUpdateBatches (o : Oracle) (wooProductId : Nat) :
    List (List (VariantMapping × VariationData)) → M Unit
  | [] => pure ()
  | chunk :: rest => do
    emit (.postVarBatch wooProductId { update := chunk.map (·.2) })
    postUpdateBatches o wooProductId rest

/-- The delete-batch loop of `_update_variations`. -/
def postDeleteBatches (o : Oracle) (wooProductId : Nat) :
    List (List Nat) → M Unit
  | [] => pure ()
  | chunk :: rest => do
    emit (.postVarBatch wooProductId { delete := chunk })
    postDeleteBatches o wooProductId rest

/-- `WooSyncCron._update_variations`. -/
def updateVariations (inst : Instance) (o : Oracle) (template : Template)
    (tm : TemplateMapping) : M Unit := do
  let s ← getS
  let existing :=
    s.db.varMappings.filter (fun vm => vm.template_mapping_id == tm.mid)
  let (updateList, createList, remaining) ←
    buildDiffLists inst o existing template.variants
  let deleteIds := remaining.map (·.woo_variation_id)
  let wooProductId := tm.woo_product_id
  let batchSize := min inst.batch_size 100
  postUpdateBatches o wooProductId (chunkList batchSize updateList)
  postCreateBatches inst o wooProductId tm.mid (chunkList batchSize createList)
  if deleteIds.isEmpty then pure ()
  else do
    postDeleteBatches o wooProductId (chunkList batchSize deleteIds)
    modifyS fun s2 => { s2 with db := { s2.db with
      varMappings := s2.db.varMappings.filter (fun vm =>
        !(vm.template_mapping_id == tm.mid &&
          deleteIds.contains vm.woo_variation_id)) } }

/-- `WooSyncCron._update_woo_product`: silent return when no variant;
PUT; on a truthy id proceed (plus variation sync for variable products);
on a structured not-found unlink the stale mapping and re-enter the
creation path with an empty index; otherwise raise. -/
def updateWooProduct (inst : Instance) (o : Oracle) (template : Template)
    (mapping : TemplateMapping) (isVariable : Bool) : M Unit := do
  match template.variants.head? with
  | none => pure ()
  | some variant => do
    let data ← buildUpdatePayload inst o template variant isVariable
    emit (.putProduct mapping.woo_product_id data)
    let result := o.putProduct mapping.woo_product_id data
    if optNatTruthy result.rid then do
      -- `mapping.last_sync_date = now()` elided
      if isVariable then updateVariations inst o template mapping
      else pure ()
    else if isNotFound result then do
      unlinkTemplateMapping mapping.mid
      cachePopTmpl template.id
      createWooProduct inst o template isVariable []
    else mThrow "Error actualizando"

-- -----------------------------------------------------------------------
-- Per-template dispatch (`_sync_one_template`)
-- -----------------------------------------------------------------------

/-- `WooSyncCron._sync_one_template`: archived handling first, then the
create-vs-update decision from the cache. -/
def syncOneTemplate (inst : Instance) (o : Oracle) (template : Template)
    (skuIdx : SkuIndex) : M Unit := do
  let s ← getS
  let mapping? := lookupNat s.cache.tmpl_map template.id
  if template.active = false then
    match mapping? with
    | some m =>
      if inst.sync_archived_as_draft then do
        emit (.putProduct m.woo_product_id { status := some "draft" })
        pure ()
      else pure ()
    | none => pure ()
  else
    let isVariable := isVariableProduct template
    match mapping? with
    | none => createWooProduct inst o template isVariable skuIdx
    | some m => updateWooProduct inst o template m isVariable

-- -----------------------------------------------------------------------
-- Cache builder (`_build_cache`) and the chunked, time-boxed driver
-- -----------------------------------------------------------------------

/-- `CHUNK_SIZE = 500`. -/
def CHUNK_SIZE : Nat := 500

/-- `MAX_CRON_SECONDS = 50 * 60`. -/
def MAX_CRON_SECONDS : Nat := 50 * 60

/-- `WooSyncCron._build_cache`: all of one instance's mappings as lookup
dicts, plus the set of in-scope active template ids with no mapping.
`scopeTemplates` stands for the templates matched by the instance's
product-domain filter.  Dicts are last-write-wins, hence the reverses. -/
def buildCache (inst : Instance) (db : DB) (scopeTemplates : List Template) :
    Cache :=
  let instTmpl := db.tmplMappings.filter (fun m => m.instance_id == inst.id)
  let mappedIds := instTmpl.map (·.product_tmpl_id)
  let activeIds := (scopeTemplates.filter (·.active)).map (·.id)
  { tmpl_map := (instTmpl.map (fun m => (m.product_tmpl_id, m))).reverse,
    cat_map := ((db.catMappings.filter (fun m => m.instance_id == inst.id)).map
      (fun m => (m.category_id, m.woo_category_id))).reverse,
    attr_map := ((db.attrMappings.filter (fun m => m.instance_id == inst.id)).map
      (fun m => (m.attribute_id, m.woo_attribute_id))).reverse,
    val_map := ((db.valMappings.filter (fun m => m.instance_id == inst.id)).map
      (fun m => (m.attribute_value_id, m.woo_term_id))).reverse,
    unmapped_tmpl_ids := activeIds.filter (fun i => !mappedIds.contains i) }

/-- The run-summary message of `_run_full_sync` (elapsed seconds included). -/
def summaryMsg (elapsed success errors : Nat) (truncated : Bool) : String :=
  "Sync completo en " ++ toString elapsed ++ "s: " ++ toString success ++
    " ok, " ++ toString errors ++ " errores" ++
    (if truncated then " (interrumpido por timeout, continuara en proximo cron)"
     else "")

/-- The per-template `try/commit/except/rollback+log` body of the inner
loop of `_run_full_sync`.  A rollback restores the database to the last
commit point; the in-memory cache, the issued remote calls and the id
sequence are not undone.  Returns whether the template succeeded. -/
def processOneTemplate (inst : Instance) (o : Oracle) (template : Template)
    (skuIdx : SkuIndex) : M Bool := do
  let snap ← getS
  let r ← attemptM (syncOneTemplate inst o template skuIdx)
  match r with
  | .ok _ => pure true
  | .error e => do
    modifyS fun s => { s with db := snap.db }
    createLog inst "product" "error" (some template.id) ("Error: " ++ e)
    pure false

/-- The inner template loop of `_run_full_sync` for one chunk, with the
per-template time check.  `cost` gives the wall-clock seconds one
template's processing consumes; `elapsed` is the running total.  Returns
(elapsed, success count, error count, timed-out flag). -/
def runChunkTemplates (inst : Instance) (o : Oracle) (skuIdx : SkuIndex)
    (cost : Nat → Nat) :
    List Template → Nat → Nat → Nat → M (Nat × Nat × Nat × Bool)
  | [], elapsed, success, errors => pure (elapsed, success, errors, false)
  | t :: ts, elapsed, success, errors =>
    if elapsed > MAX_CRON_SECONDS then pure (elapsed, success, errors, true)
    else do
      let ok ← processOneTemplate inst o t skuIdx
      if ok then
        runChunkTemplates inst o skuIdx cost ts (elapsed + cost t.id)
          (success + 1) errors
      else
        runChunkTemplates inst o skuIdx cost ts (elapsed + cost t.id)
          success (errors + 1)

/-- The outer chunk loop of `_run_full_sync`, with the per-chunk time
check and the cache rebuild between chunks. -/
def runChunks (inst : Instance) (o : Oracle) (skuIdx : SkuIndex)
    (cost : Nat → Nat) (scope : List Template) :
    List (List Template) → Nat → Nat → Nat → Bool →
    M (Nat × Nat × Nat × Bool)
  | [], elapsed, success, errors, skipped =>
    pure (elapsed, success, errors, skipped)
  | c :: cs, elapsed, success, errors, skipped =>
    if elapsed > MAX_CRON_SECONDS then pure (elapsed, success, errors, true)
    else do
      let r ← runChunkTemplates inst o skuIdx cost c elapsed success errors
      modifyS fun st => { st with cache := buildCache inst st.db scope }
      runChunks inst o skuIdx cost scope cs r.1 r.2.1 r.2.2.1
        (skipped || r.2.2.2)

/-- `WooSyncCron._run_full_sync`: build the cache, fetch the SKU index
only when unmapped templates exist (`skuIdx` stands for what
`_fetch_woo_sku_index` would return), process the filtered templates in
chunks under the time budget, and always write a summary log.  Returns
(success count, error count, timed-out flag). -/
def runFullSync (inst : Instance) (o : Oracle) (cost : Nat → Nat)
    (templates : List Template) (skuIdx : SkuIndex) : M (Nat × Nat × Bool) := do
  modifyS fun st => { st with cache := buildCache inst st.db templates }
  let st ← getS
  let idx := if st.cache.unmapped_tmpl_ids.isEmpty then ([] : SkuIndex)
             else skuIdx
  let r ← runChunks inst o idx cost templates
    (chunkList CHUNK_SIZE templates) 0 0 0 false
  createLog inst "full" "success" none (summaryMsg r.1 r.2.1 r.2.2.1 r.2.2.2)
  pure (r.2.1, r.2.2.1, r.2.2.2)

-- -----------------------------------------------------------------------
-- Derived observations used by the verification statements
-- -----------------------------------------------------------------------

/-- The variation payload `_build_variation_data` produces for a variant
with no attribute values (no attribute resolution side effects). -/
def pureVariationData (inst : Instance) (variant : Variant) : VariationData :=
  { regular_price := getProductPrice inst variant,
    sku := firstTruthy [variant.barcode, variant.default_code],
    stock_quantity := getProductQty inst variant,
    weight := variant.weight,
    attributes := [] }

/-- The remote call one create-chunk of `_update_variations` /
`_create_variable_product` turns into. -/
def createBatchCall (wooProductId : Nat)
    (ch : List (Variant × VariationData)) : RemoteCall :=
  .postVarBatch wooProductId { create := ch.map (·.2) }

/-- The calls a create-only variation sync issues: the chunked create set. -/
def createOnlyTrace (inst : Instance) (tm : TemplateMapping)
    (variants : List Variant) : List RemoteCall :=
  (chunkList (min inst.batch_size 100)
    (variants.map (fun v => (v, pureVariationData inst v)))).map
    (createBatchCall tm.woo_product_id)

/-- Whether a finished computation surfaced a failure to its caller. -/
def isErrorResult : Except String α × RunState → Bool
  | (.error _, _) => true
  | (.ok _, _) => false

/-- Whether a call is a product-creation call (`POST products`). -/
def isPostProducts : RemoteCall → Bool
  | .postProducts _ => true
  | _ => false

/-- Number of product-creation calls (`POST products`) in a trace. -/
def countPostProducts (calls : List RemoteCall) : Nat :=
  calls.countP isPostProducts

/-- A TemplateMapping for this instance and template pointing at remote
product `p` is present in the store. -/
def mappedTo (inst : Instance) (template : Template) (p : WooProduct)
    (l : List TemplateMapping) : Prop :=
  ∃ tm ∈ l, tm.instance_id = inst.id ∧ tm.product_tmpl_id = template.id ∧
    tm.woo_product_id = p.id

/-- Number of items one `variations/batch` payload carries. -/
def BatchPayload.size (p : BatchPayload) : Nat :=
  p.create.length + p.update.length + p.delete.length

/-- A call respects the variation-batch size cap `n` (non-batch calls
are unconstrained). -/
def varBatchBounded (n : Nat) (c : RemoteCall) : Prop :=
  match c with
  | .postVarBatch _ p => p.size ≤ n
  | _ => True

/-- A `variations/batch` call whose payload has a nonempty `create` set. -/
def isCreateBatch (c : RemoteCall) : Bool :=
  match c with
  | .postVarBatch _ p => !p.create.isEmpty
  | _ => false

/-- No uniqueness conflict between two template mappings:
distinct (instance, template) and distinct (instance, remote product). -/
def tmplOK (a b : TemplateMapping) : Prop :=
  ¬(a.instance_id = b.instance_id ∧ a.product_tmpl_id = b.product_tmpl_id) ∧
  ¬(a.instance_id = b.instance_id ∧ a.woo_product_id = b.woo_product_id)

def varOK (a b : VariantMapping) : Prop :=
  ¬(a.instance_id = b.instance_id ∧ a.product_id = b.product_id)

def catOK (a b : CategoryMapping) : Prop :=
  ¬(a.instance_id = b.instance_id ∧ a.category_id = b.category_id)

def attrOK (a b : AttributeMapping) : Prop :=
  ¬(a.instance_id = b.instance_id ∧ a.attribute_id = b.attribute_id)

def valOK (a b : ValueMapping) : Prop :=
  ¬(a.instance_id = b.instance_id ∧ a.attribute_value_id = b.attribute_value_id)

/-- The uniqueness invariant of the mapping store (§3 / the SQL
constraints): per instance at most one live mapping per local entity and
per remote product id. -/
def DB.Uniq (db : DB) : Prop :=
  db.tmplMappings.Pairwise tmplOK ∧
  db.varMappings.Pairwise varOK ∧
  db.catMappings.Pairwise catOK ∧
  db.attrMappings.Pairwise attrOK ∧
  db.valMappings.Pairwise valOK

/-- Number of live template mappings for one (instance, template) pair. -/
def tmplCountFor (db : DB) (instId tmplId : Nat) : Nat :=
  (db.tmplMappings.filter
    (fun m => m.instance_id == instId && m.product_tmpl_id == tmplId)).length

/-- How many templates the driver starts before the budget check fires:
a template is attempted iff the elapsed time before it is within
`MAX_CRON_SECONDS`. -/
def attemptedCount (cost : Nat → Nat) : Nat → List Template → Nat
  | _, [] => 0
  | elapsed, t :: ts =>
    if elapsed > MAX_CRON_SECONDS then 0
    else 1 + attemptedCount cost (elapsed + cost t.id) ts

/-- `f` preserves the state predicate `P`, on success and on raise alike. -/
def MPreserves (P : RunState → Prop) (f : M α) : Prop :=
  ∀ s r s', P s → f s = (r, s') → P s'

/-- Hypotheses about which remote calls a state predicate tolerates,
bundled for the shared sync subroutines (which never POST to the
products collection). -/
structure CallsOK (okCall : RemoteCall → Prop) (inst : Instance) : Prop where
  cat : ∀ n p, okCall (.postCategory n p)
  attr : ∀ n, okCall (.postAttr n)
  term : ∀ a n, okCall (.postTerm a n)
  getVar : ∀ p, okCall (.getVariations p)
  put : ∀ w d, okCall (.putProduct w d)
  varBatch : ∀ pid pl, BatchPayload.size pl ≤ min inst.batch_size 100 →
    okCall (.postVarBatch pid pl)

/-- Stability of a state predicate under the primitive effects used by the
shared sync subroutines. -/
structure PrimStable (P : RunState → Prop) (okCall : RemoteCall → Prop) :
    Prop where
  emitOK : ∀ c, okCall c → MPreserves P (emit c)
  createVar : ∀ i t p w, MPreserves P (createVariantMapping i t p w)
  createCat : ∀ i c w, MPreserves P (createCategoryMapping i c w)
  createAttr : ∀ i a w, MPreserves P (createAttributeMapping i a w)
  createVal : ∀ i v w wa, MPreserves P (createValueMapping i v w wa)
  log : ∀ inst ty st tid msg, MPreserves P (createLog inst ty st tid msg)
  cacheMod : ∀ g, (∀ s, (g s).db = s.db ∧ (g s).calls = s.calls) →
    MPreserves P (modifyS g)
  varFilter : ∀ p, MPreserves P (modifyS fun s => { s with db := { s.db with
    varMappings := s.db.varMappings.filter p } })

-- -----------------------------------------------------------------------
-- Concrete data used by witnesses and counterexamples
-- -----------------------------------------------------------------------

def instC10 : Instance :=
  { id := 1, stock_source := .specific, warehouse_ids := [] }

def variantC10 : Variant :=
  { id := 7, qtyGlobal := fun _ => 55, qtyWh := fun _ _ => 44 }

def mAC4 : VariantMapping :=
  { instance_id := 1, template_mapping_id := 5, product_id := 1,
    woo_variation_id := 11 }

def mBC4 : VariantMapping :=
  { instance_id := 1, template_mapping_id := 5, product_id := 2,
    woo_variation_id := 12 }

def mCC4 : VariantMapping :=
  { instance_id := 1, template_mapping_id := 5, product_id := 3,
    woo_variation_id := 13 }

def existC4 : List VariantMapping := [mAC4, mBC4, mCC4]

def vDC4 : Variant := { id := 4 }

def varsC4 : List Variant := [{ id := 2 }, { id := 3 }, vDC4]

def instC4 : Instance := { id := 1 }

def uC4 : List (VariantMapping × VariationData) :=
  [(mBC4, { vid := some 12 }), (mCC4, { vid := some 13 })]

def cC4 : List (Variant × VariationData) := [(vDC4, {})]

def remC4 : List VariantMapping := [mAC4]

def instC6 : Instance := { id := 6, batch_size := 250 }

def varsC6 : List Variant := (List.range 120).map (fun i => { id := i + 1 })

def tmplC6 : Template := { id := 60, variants := varsC6 }

def tmC6 : TemplateMapping :=
  { mid := 1, instance_id := 6, product_tmpl_id := 60, woo_product_id := 500,
    woo_product_type := "variable" }

def instC6w : Instance := { id := 7, batch_size := 250 }

def tmplC6w : Template := { id := 70, variants := [{ id := 71 }] }

def tmC6w : TemplateMapping :=
  { mid := 2, instance_id := 7, product_tmpl_id := 70, woo_product_id := 600,
    woo_product_type := "variable" }

def c6wCall : RemoteCall :=
  .postVarBatch 600 { create := [pureVariationData instC6w { id := 71 }] }

def instC1 : Instance := { id := 2 }

def varC1 : Variant := { id := 21 }

def tmplC1 : Template := { id := 20, variants := [varC1] }

def mC1 : TemplateMapping :=
  { mid := 9, instance_id := 2, product_tmpl_id := 20, woo_product_id := 300,
    woo_product_type := "simple" }

def oC1 : Oracle :=
  { trivialOracle with putProduct := fun _ _ => { rid := some 1 } }

def sC1 : RunState :=
  { db := { tmplMappings := [mC1] }, cache := { tmpl_map := [(20, mC1)] } }

def instC3 : Instance := { id := 5 }

def tmplC3 : Template := { id := 50, active := false }

def instC9 : Instance := { id := 3 }

def tmplC9 : Template := { id := 9, name := "no variants", variants := [] }

def mapC9 : TemplateMapping :=
  { mid := 1, instance_id := 3, product_tmpl_id := 9, woo_product_id := 77,
    woo_product_type := "simple" }

def tmplC7 : Template :=
  { id := 10, barcode := some " T1 ",
    variants := [{ id := 1, barcode := some "B1" }] }

def idxC7 : SkuIndex :=
  [("T1", { id := 100 }), ("B1", { id := 101 })]

def instC8 : Instance := { id := 9 }

def tmplC8a : Template := { id := 101, active := false }

def tmplC8b : Template := { id := 102, active := false }

def tmplsC8 : List Template := [tmplC8a, tmplC8b]

def costC8 : Nat → Nat := fun _ => 3001

def instC5 : Instance := { id := 8 }

def varC5 : Variant := { id := 81 }

def tmplC5 : Template := { id := 80, variants := [varC5] }

def mapC5 : TemplateMapping :=
  { mid := 3, instance_id := 8, product_tmpl_id := 80, woo_product_id := 700,
    woo_product_type := "simple" }

def oC5 : Oracle :=
  { trivialOracle with putProduct := fun _ _ => { dataStatus := some 404 } }

def sC5 : RunState :=
  { db := { tmplMappings := [mapC5] }, cache := { tmpl_map := [(80, mapC5)] } }

def dataC5 : ProductPayload :=
  { name := "", sku := some "", regular_price := some 0,
    manage_stock := some true, stock_quantity := some 0,
    status := some "publish" }

def instC2 : Instance := { id := 4 }

def varC2 : Variant := { id := 31, barcode := some "X123" }

def tmplC2 : Template := { id := 30, variants := [varC2] }

def wooC2 : WooProduct := { id := 900 }

def idxC2 : SkuIndex := [("X123", wooC2)]

-- -----------------------------------------------------------------------
-- General lemmas about the embedding
-- -----------------------------------------------------------------------

theorem bind_apply (x : M α) (f : α → M β) (s : RunState) :
    (x >>= f) s =
      match x s with
      | (.ok a, s1) => f a s1
      | (.error e, s1) => (.error e, s1) := rfl

theorem pure_apply (a : α) (s : RunState) : (pure a : M α) s = (.ok a, s) := rfl

theorem lookupStr_nil (k : String) : lookupStr ([] : List (String × α)) k = none := rfl

theorem lookupStr_isSome_ne_nil {l : List (String × α)} {k : String}
    (h : (lookupStr l k).isSome) : l.isEmpty = false := by
  cases l with
  | nil => simp [lookupStr] at h
  | cons a l => rfl

theorem MPreserves.pureM {P : RunState → Prop} (a : α) :
    MPreserves P (pure a : M α) := by
  intro s r s' hP h
  rw [pure_apply] at h
  have h2 : s = s' := by simpa using congrArg Prod.snd h
  exact h2 ▸ hP

theorem MPreserves.getSM {P : RunState → Prop} : MPreserves P getS := by
  intro s r s' hP h
  have h2 : s = s' := by simpa using congrArg Prod.snd h
  exact h2 ▸ hP

theorem MPreserves.throwM {P : RunState → Prop} (e : String) :
    MPreserves P (mThrow e : M α) := by
  intro s r s' hP h
  have h2 : s = s' := by simpa using congrArg Prod.snd h
  exact h2 ▸ hP

theorem MPreserves.modifyM {P : RunState → Prop} (g : RunState → RunState)
    (hg : ∀ s, P s → P (g s)) : MPreserves P (modifyS g) := by
  intro s r s' hP h
  have h2 : g s = s' := by simpa using congrArg Prod.snd h
  exact h2 ▸ hg s hP

theorem MPreserves.bindM {P : RunState → Prop} {x : M α} {f : α → M β}
    (hx : MPreserves P x) (hf : ∀ a, MPreserves P (f a)) :
    MPreserves P (x >>= f) := by
  intro s r s' hP h
  rw [bind_apply] at h
  rcases hxs : x s with ⟨r1, s1⟩
  rw [hxs] at h
  cases r1 with
  | ok a => exact hf a s1 r s' (hx s (.ok a) s1 hP hxs) h
  | error e =>
    have h2 : s1 = s' := by simpa using congrArg Prod.snd h
    exact h2 ▸ hx s (.error e) s1 hP hxs

theorem chunkListF_congr (n : Nat) : ∀ (f1 : Nat) (l : List α) (f2 : Nat),
    l.length ≤ f1 → l.length ≤ f2 → chunkListF n f1 l = chunkListF n f2 l := by
  intro f1
  induction f1 with
  | zero =>
    intro l f2 h1 h2
    have : l = [] := List.length_eq_zero.mp (Nat.le_zero.mp h1)
    subst this
    cases f2 <;> rfl
  | succ f ih =>
    intro l f2 h1 h2
    cases l with
    | nil => cases f2 <;> rfl
    | cons a t =>
      cases f2 with
      | zero => simp at h2
      | succ f2 =>
        by_cases hn : n = 0
        · simp [chunkListF, hn]
        · simp only [chunkListF, hn, if_false]
          congr 1
          refine ih ((a :: t).drop n) f2 ?_ ?_ <;>
            (simp only [List.length_drop, List.length_cons] at h1 h2 ⊢; omega)

theorem chunkList_nil (n : Nat) : chunkList n ([] : List α) = [] := rfl

theorem chunkList_cons (n : Nat) (a : α) (l : List α) :
    chunkList n (a :: l) =
      if n = 0 then []
      else (a :: l).take n :: chunkList n ((a :: l).drop n) := by
  show chunkListF n (l.length + 1) (a :: l) = _
  rw [chunkListF]
  by_cases hn : n = 0
  · simp [hn]
  · simp only [hn, if_false]
    congr 1
    refine chunkListF_congr n l.length ((a :: l).drop n)
      ((a :: l).drop n).length ?_ le_rfl
    simp only [List.length_drop, List.length_cons]
    omega

theorem chunkList_length_le (n : Nat) (l : List α) :
    ∀ c ∈ chunkList n l, c.length ≤ n := by
  generalize hk : l.length = k
  induction k using Nat.strong_induction_on generalizing l with
  | _ k ih =>
    cases l with
    | nil => intro c hc; simp [chunkList_nil] at hc
    | cons a t =>
      rw [chunkList_cons]
      by_cases hn : n = 0
      · simp [hn]
      · simp only [hn, if_false]
        intro c hc
        rcases List.mem_cons.mp hc with h1 | h2
        · subst h1; exact List.length_take_le n (a :: t)
        · refine ih ((a :: t).drop n).length ?_ ((a :: t).drop n) rfl c h2
          subst hk
          simp only [List.length_drop, List.length_cons]
          omega

theorem chunkList_length (n : Nat) (hn : n ≠ 0) (l : List α) :
    (chunkList n l).length = (l.length + n - 1) / n := by
  generalize hk : l.length = k
  induction k using Nat.strong_induction_on generalizing l with
  | _ k ih =>
    cases l with
    | nil =>
      rw [chunkList_nil]
      simp only [List.length_nil] at hk
      subst hk
      rw [Nat.div_eq_of_lt (by omega)]
      rfl
    | cons a t =>
      simp only [List.length_cons] at hk
      subst hk
      rw [chunkList_cons]
      simp only [hn, if_false, List.length_cons]
      have hdrop : ((a :: t).drop n).length = t.length + 1 - n := by
        simp [List.length_drop]
      rw [ih ((a :: t).drop n).length (by rw [hdrop]; omega)
          ((a :: t).drop n) rfl, hdrop]
      by_cases hlt : t.length + 1 ≤ n
      · have e1 : t.length + 1 - n = 0 := by omega
        have e2 : t.length + 1 + n - 1 = t.length + n := by omega
        rw [e1, e2]
        rw [Nat.div_eq_of_lt (by omega)]
        rw [Nat.add_div_right _ (by omega)]
        rw [Nat.div_eq_of_lt (by omega)]
      · have e1 : t.length + 1 - n + n - 1 = t.length := by omega
        have e2 : t.length + 1 + n - 1 = t.length + n := by omega
        rw [e1, e2, Nat.add_div_right _ (by omega)]

theorem chunkList_ne_nil (n : Nat) (hn : n ≠ 0) (l : List α) :
    ∀ c ∈ chunkList n l, c ≠ [] := by
  generalize hk : l.length = k
  induction k using Nat.strong_induction_on generalizing l with
  | _ k ih =>
    cases l with
    | nil => intro c hc; simp [chunkList_nil] at hc
    | cons a t =>
      rw [chunkList_cons]
      simp only [hn, if_false]
      intro c hc
      rcases List.mem_cons.mp hc with h1 | h2
      · subst h1
        cases n with
        | zero => exact absurd rfl hn
        | succ m => simp [List.take_succ_cons]
      · refine ih ((a :: t).drop n).length ?_ ((a :: t).drop n) rfl c h2
        subst hk
        simp only [List.length_drop, List.length_cons]
        omega

theorem ensureCategorySynced_pres {P : RunState → Prop}
    {okCall : RemoteCall → Prop} {inst : Instance}
    (hp : PrimStable P okCall) (hc : CallsOK okCall inst) (o : Oracle) :
    ∀ categ : Category, MPreserves P (ensureCategorySynced inst o categ)
  | .mk cid cname cparent => by
    unfold ensureCategorySynced
    refine MPreserves.bindM MPreserves.getSM (fun s0 => ?_)
    dsimp only
    split
    · exact MPreserves.pureM _
    · cases cparent with
      | some p =>
        refine MPreserves.bindM (ensureCategorySynced_pres hp hc o p)
          (fun wooParent => ?_)
        refine MPreserves.bindM (hp.emitOK _ (hc.cat _ _)) (fun _ => ?_)
        dsimp only
        split
        any_goals split
        any_goals exact MPreserves.throwM _
        all_goals refine MPreserves.bindM (hp.createCat _ _ _) (fun _ => ?_)
        all_goals refine MPreserves.bindM ?_ (fun _ => MPreserves.pureM _)
        all_goals exact hp.cacheMod _ (fun s => ⟨rfl, rfl⟩)
      | none =>
        refine MPreserves.bindM (MPreserves.pureM _) (fun wooParent => ?_)
        refine MPreserves.bindM (hp.emitOK _ (hc.cat _ _)) (fun _ => ?_)
        dsimp only
        split
        any_goals split
        any_goals exact MPreserves.throwM _
        all_goals refine MPreserves.bindM (hp.createCat _ _ _) (fun _ => ?_)
        all_goals refine MPreserves.bindM ?_ (fun _ => MPreserves.pureM _)
        all_goals exact hp.cacheMod _ (fun s => ⟨rfl, rfl⟩)

theorem ensureAttributeSynced_pres {P : RunState → Prop}
    {okCall : RemoteCall → Prop} {inst : Instance}
    (hp : PrimStable P okCall) (hc : CallsOK okCall inst) (o : Oracle)
    (attr : Attr) :
    MPreserves P (ensureAttributeSynced inst o attr) := by
  unfold ensureAttributeSynced
  refine MPreserves.bindM MPreserves.getSM (fun s0 => ?_)
  dsimp only
  split
  · exact MPreserves.pureM _
  · refine MPreserves.bindM (hp.emitOK _ (hc.attr _)) (fun _ => ?_)
    dsimp only
    split
    any_goals split
    any_goals exact MPreserves.throwM _
    all_goals refine MPreserves.bindM (hp.createAttr _ _ _) (fun _ => ?_)
    all_goals refine MPreserves.bindM ?_ (fun _ => MPreserves.pureM _)
    all_goals exact hp.cacheMod _ (fun s => ⟨rfl, rfl⟩)

theorem ensureAttributeValueSynced_pres {P : RunState → Prop}
    {okCall : RemoteCall → Prop} {inst : Instance}
    (hp : PrimStable P okCall) (hc : CallsOK okCall inst) (o : Oracle)
    (attrValue : AttrValue) (wooAttrId : Nat) :
    MPreserves P (ensureAttributeValueSynced inst o attrValue wooAttrId) := by
  unfold ensureAttributeValueSynced
  refine MPreserves.bindM MPreserves.getSM (fun s0 => ?_)
  dsimp only
  split
  · exact MPreserves.pureM _
  · refine MPreserves.bindM (hp.emitOK _ (hc.term _ _)) (fun _ => ?_)
    dsimp only
    split
    any_goals split
    any_goals exact MPreserves.throwM _
    all_goals refine MPreserves.bindM (hp.createVal _ _ _ _) (fun _ => ?_)
    all_goals refine MPreserves.bindM ?_ (fun _ => MPreserves.pureM _)
    all_goals exact hp.cacheMod _ (fun s => ⟨rfl, rfl⟩)

theorem ensureValuesSynced_pres {P : RunState → Prop}
    {okCall : RemoteCall → Prop} {inst : Instance}
    (hp : PrimStable P okCall) (hc : CallsOK okCall inst) (o : Oracle)
    (wooAttrId : Nat) :
    ∀ vals : List AttrValue,
      MPreserves P (ensureValuesSynced inst o wooAttrId vals)
  | [] => by
    rw [ensureValuesSynced]
    exact MPreserves.pureM _
  | v :: vs => by
    rw [ensureValuesSynced]
    exact MPreserves.bindM
      (ensureAttributeValueSynced_pres hp hc o v wooAttrId)
      (fun _ => ensureValuesSynced_pres hp hc o wooAttrId vs)

theorem buildWooAttributeLines_pres {P : RunState → Prop}
    {okCall : RemoteCall → Prop} {inst : Instance}
    (hp : PrimStable P okCall) (hc : CallsOK okCall inst) (o : Oracle) :
    ∀ (idx : Nat) (lines : List (Attr × List AttrValue)),
      MPreserves P (buildWooAttributeLines inst o idx lines)
  | _, [] => by
    rw [buildWooAttributeLines]
    exact MPreserves.pureM _
  | idx, (attr, vals) :: rest => by
    rw [buildWooAttributeLines]
    refine MPreserves.bindM (ensureAttributeSynced_pres hp hc o attr)
      (fun wooAttrId => ?_)
    refine MPreserves.bindM (ensureValuesSynced_pres hp hc o wooAttrId vals)
      (fun _ => ?_)
    exact MPreserves.bindM (buildWooAttributeLines_pres hp hc o (idx + 1) rest)
      (fun _ => MPreserves.pureM _)

theorem getWooCategories_pres {P : RunState → Prop}
    {okCall : RemoteCall → Prop} {inst : Instance}
    (hp : PrimStable P okCall) (hc : CallsOK okCall inst) (o : Oracle)
    (template : Template) :
    MPreserves P (getWooCategories inst o template) := by
  unfold getWooCategories
  cases template.categ with
  | some c =>
    exact MPreserves.bindM (ensureCategorySynced_pres hp hc o c)
      (fun _ => MPreserves.pureM _)
  | none => exact MPreserves.pureM _

theorem buildVariationAttrs_pres {P : RunState → Prop}
    {okCall : RemoteCall → Prop} {inst : Instance}
    (hp : PrimStable P okCall) (hc : CallsOK okCall inst) (o : Oracle) :
    ∀ ptavs : List PTAV, MPreserves P (buildVariationAttrs inst o ptavs)
  | [] => by
    rw [buildVariationAttrs]
    exact MPreserves.pureM _
  | p :: ps => by
    rw [buildVariationAttrs]
    refine MPreserves.bindM (ensureAttributeSynced_pres hp hc o p.attr)
      (fun _ => ?_)
    exact MPreserves.bindM (buildVariationAttrs_pres hp hc o ps)
      (fun _ => MPreserves.pureM _)

theorem buildVariationData_pres {P : RunState → Prop}
    {okCall : RemoteCall → Prop} {inst : Instance}
    (hp : PrimStable P okCall) (hc : CallsOK okCall inst) (o : Oracle)
    (variant : Variant) :
    MPreserves P (buildVariationData inst o variant) := by
  unfold buildVariationData
  exact MPreserves.bindM (buildVariationAttrs_pres hp hc o variant.ptavs)
    (fun _ => MPreserves.pureM _)

theorem buildVariationsList_pres {P : RunState → Prop}
    {okCall : RemoteCall → Prop} {inst : Instance}
    (hp : PrimStable P okCall) (hc : CallsOK okCall inst) (o : Oracle) :
    ∀ variants : List Variant,
      MPreserves P (buildVariationsList inst o variants)
  | [] => by
    rw [buildVariationsList]
    exact MPreserves.pureM _
  | v :: vs => by
    rw [buildVariationsList]
    refine MPreserves.bindM (buildVariationData_pres hp hc o v) (fun _ => ?_)
    exact MPreserves.bindM (buildVariationsList_pres hp hc o vs)
      (fun _ => MPreserves.pureM _)

theorem buildDiffLists_pres {P : RunState → Prop}
    {okCall : RemoteCall → Prop} {inst : Instance}
    (hp : PrimStable P okCall) (hc : CallsOK okCall inst) (o : Oracle) :
    ∀ (variants : List Variant) (remaining : List VariantMapping),
      MPreserves P (buildDiffLists inst o remaining variants)
  | [], remaining => by
    rw [buildDiffLists]
    exact MPreserves.pureM _
  | v :: vs, remaining => by
    rw [buildDiffLists]
    refine MPreserves.bindM (buildVariationData_pres hp hc o v) (fun d => ?_)
    split
    · exact MPreserves.bindM (buildDiffLists_pres hp hc o vs _)
        (fun _ => MPreserves.pureM _)
    · exact MPreserves.bindM (buildDiffLists_pres hp hc o vs remaining)
        (fun _ => MPreserves.pureM _)

theorem recordCreatedVariantMappings_pres {P : RunState → Prop}
    {okCall : RemoteCall → Prop}
    (hp : PrimStable P okCall) (instId tmId : Nat) :
    ∀ (cids : List (Option Nat)) (vs : List Variant),
      MPreserves P (recordCreatedVariantMappings instId tmId cids vs)
  | [], _ => by
    rw [recordCreatedVariantMappings]
    exact MPreserves.pureM _
  | _ :: _, [] => MPreserves.pureM ()
  | cid :: rest, v :: vs => by
    rw [recordCreatedVariantMappings]
    split
    · refine MPreserves.bindM (hp.createVar _ _ _ _) (fun _ => ?_)
      exact recordCreatedVariantMappings_pres hp instId tmId rest vs
    · exact recordCreatedVariantMappings_pres hp instId tmId rest vs

theorem postUpdateBatches_pres {P : RunState → Prop}
    {okCall : RemoteCall → Prop}
    (hp : PrimStable P okCall) (o : Oracle) (wooProductId : Nat) :
    ∀ chunks : List (List (VariantMapping × VariationData)),
      (∀ chunk ∈ chunks,
        okCall (.postVarBatch wooProductId { update := chunk.map (·.2) })) →
      MPreserves P (postUpdateBatches o wooProductId chunks)
  | [], _ => by
    rw [postUpdateBatches]
    exact MPreserves.pureM _
  | chunk :: rest, hb => by
    rw [postUpdateBatches]
    refine MPreserves.bindM (hp.emitOK _ (hb chunk (List.mem_cons_self _ _)))
      (fun _ => ?_)
    exact postUpdateBatches_pres hp o wooProductId rest
      (fun c hcm => hb c (List.mem_cons_of_mem _ hcm))

theorem postCreateBatches_pres {P : RunState → Prop}
    {okCall : RemoteCall → Prop} {inst : Instance}
    (hp : PrimStable P okCall) (o : Oracle) (wooProductId tmId : Nat) :
    ∀ chunks : List (List (Variant × VariationData)),
      (∀ chunk ∈ chunks,
        okCall (.postVarBatch wooProductId { create := chunk.map (·.2) })) →
      MPreserves P (postCreateBatches inst o wooProductId tmId chunks)
  | [], _ => by
    rw [postCreateBatches]
    exact MPreserves.pureM _
  | chunk :: rest, hb => by
    rw [postCreateBatches]
    refine MPreserves.bindM (hp.emitOK _ (hb chunk (List.mem_cons_self _ _)))
      (fun _ => ?_)
    refine MPreserves.bindM
      (recordCreatedVariantMappings_pres hp inst.id tmId _ _) (fun _ => ?_)
    exact postCreateBatches_pres hp o wooProductId tmId rest
      (fun c hcm => hb c (List.mem_cons_of_mem _ hcm))

theorem postDeleteBatches_pres {P : RunState → Prop}
    {okCall : RemoteCall → Prop}
    (hp : PrimStable P okCall) (o : Oracle) (wooProductId : Nat) :
    ∀ chunks : List (List Nat),
      (∀ chunk ∈ chunks,
        okCall (.postVarBatch wooProductId { delete := chunk })) →
      MPreserves P (postDeleteBatches o wooProductId chunks)
  | [], _ => by
    rw [postDeleteBatches]
    exact MPreserves.pureM _
  | chunk :: rest, hb => by
    rw [postDeleteBatches]
    refine MPreserves.bindM (hp.emitOK _ (hb chunk (List.mem_cons_self _ _)))
      (fun _ => ?_)
    exact postDeleteBatches_pres hp o wooProductId rest
      (fun c hcm => hb c (List.mem_cons_of_mem _ hcm))

theorem createMatchedVariantMappings_pres {P : RunState → Prop}
    {okCall : RemoteCall → Prop}
    (hp : PrimStable P okCall) (instId tmId : Nat)
    (wooBySku : List (String × Nat)) :
    ∀ vs : List Variant,
      MPreserves P (createMatchedVariantMappings instId tmId wooBySku vs)
  | [] => by
    rw [createMatchedVariantMappings]
    exact MPreserves.pureM _
  | v :: vs => by
    rw [createMatchedVariantMappings]
    dsimp only
    split
    · split
      · refine MPreserves.bindM (hp.createVar _ _ _ _) (fun _ => ?_)
        exact createMatchedVariantMappings_pres hp instId tmId wooBySku vs
      · exact createMatchedVariantMappings_pres hp instId tmId wooBySku vs
    · exact createMatchedVariantMappings_pres hp instId tmId wooBySku vs

theorem buildUpdatePayload_pres {P : RunState → Prop}
    {okCall : RemoteCall → Prop} {inst : Instance}
    (hp : PrimStable P okCall) (hc : CallsOK okCall inst) (o : Oracle)
    (template : Template) (variant : Variant) (isVariable : Bool) :
    MPreserves P (buildUpdatePayload inst o template variant isVariable) := by
  unfold buildUpdatePayload
  cases isVariable with
  | true =>
    refine MPreserves.bindM (getWooCategories_pres hp hc o template)
      (fun _ => ?_)
    exact MPreserves.bindM
      (buildWooAttributeLines_pres hp hc o 0 template.attribute_lines)
      (fun _ => MPreserves.pureM _)
  | false =>
    exact MPreserves.bindM (getWooCategories_pres hp hc o template)
      (fun _ => MPreserves.pureM _)

theorem updateVariations_pres {P : RunState → Prop}
    {okCall : RemoteCall → Prop} {inst : Instance}
    (hp : PrimStable P okCall) (hc : CallsOK okCall inst) (o : Oracle)
    (template : Template) (tm : TemplateMapping) :
    MPreserves P (updateVariations inst o template tm) := by
  unfold updateVariations
  refine MPreserves.bindM MPreserves.getSM (fun s0 => ?_)
  dsimp only
  refine MPreserves.bindM (buildDiffLists_pres hp hc o template.variants _)
    (fun trip => ?_)
  dsimp only
  refine MPreserves.bindM (postUpdateBatches_pres hp o _ _ ?_) (fun _ => ?_)
  · intro chunk hch
    refine hc.varBatch _ _ ?_
    have := chunkList_length_le (min inst.batch_size 100) trip.1 chunk hch
    simp only [BatchPayload.size, List.length_map, List.length_nil]
    omega
  · refine MPreserves.bindM (postCreateBatches_pres hp o _ _ _ ?_)
      (fun _ => ?_)
    · intro chunk hch
      refine hc.varBatch _ _ ?_
      have := chunkList_length_le (min inst.batch_size 100) trip.2.1 chunk hch
      simp only [BatchPayload.size, List.length_map, List.length_nil]
      omega
    · split
      · exact MPreserves.pureM _
      · refine MPreserves.bindM (postDeleteBatches_pres hp o _ _ ?_)
          (fun _ => ?_)
        · intro chunk hch
          refine hc.varBatch _ _ ?_
          have := chunkList_length_le (min inst.batch_size 100)
            (trip.2.2.map (fun vm => vm.woo_variation_id)) chunk hch
          simp only [BatchPayload.size, List.length_nil]
          omega
        · exact hp.varFilter _

theorem buildVariationData_no_ptavs (inst : Instance) (o : Oracle)
    (v : Variant) (hv : v.ptavs = []) (s : RunState) :
    buildVariationData inst o v s = (.ok (pureVariationData inst v), s) := by
  unfold buildVariationData
  rw [bind_apply, hv]
  rfl

theorem buildDiffLists_all_create (inst : Instance) (o : Oracle) :
    ∀ (variants : List Variant), (∀ v ∈ variants, v.ptavs = []) →
    ∀ s : RunState,
      buildDiffLists inst o [] variants s =
        (.ok ([], variants.map (fun v => (v, pureVariationData inst v)), []),
         s) := by
  intro variants
  induction variants with
  | nil => intro _ s; rfl
  | cons v vs ih =>
    intro hpt s
    rw [buildDiffLists, bind_apply,
      buildVariationData_no_ptavs inst o v (hpt v (List.mem_cons_self _ _)) s]
    dsimp only
    rw [List.find?_nil]
    dsimp only
    rw [bind_apply, ih (fun v' hv' => hpt v' (List.mem_cons_of_mem _ hv')) s]
    rfl

theorem recordCreatedVariantMappings_nil_ids (i t : Nat)
    (vs : List Variant) :
    recordCreatedVariantMappings i t [] vs = pure () := by
  cases vs <;> rfl

theorem postCreateBatches_calls (inst : Instance) (o : Oracle)
    (wooProductId tmId : Nat)
    (hids : ∀ p pl, (o.postVarBatch p pl).createIds = []) :
    ∀ (chunks : List (List (Variant × VariationData))) (s : RunState),
      postCreateBatches inst o wooProductId tmId chunks s =
        (.ok (),
         { s with
             calls := s.calls ++ chunks.map (createBatchCall wooProductId) })
    := by
  intro chunks
  induction chunks with
  | nil =>
    intro s
    rw [postCreateBatches, pure_apply]
    simp
  | cons chunk rest ih =>
    intro s
    rw [postCreateBatches, bind_apply]
    dsimp only [emit, modifyS]
    rw [bind_apply]
    have hrec : recordCreatedVariantMappings inst.id tmId
        (o.postVarBatch wooProductId { create := chunk.map (·.2) }).createIds
        (chunk.map (·.1)) = pure () := by
      rw [hids]
      exact recordCreatedVariantMappings_nil_ids _ _ _
    rw [hrec, pure_apply]
    dsimp only
    rw [ih]
    simp [createBatchCall]

theorem updateVariations_create_only (inst : Instance) (o : Oracle)
    (template : Template) (tm : TemplateMapping) (s : RunState)
    (hex : s.db.varMappings.filter
      (fun vm => vm.template_mapping_id == tm.mid) = [])
    (hpt : ∀ v ∈ template.variants, v.ptavs = [])
    (hids : ∀ p pl, (o.postVarBatch p pl).createIds = []) :
    updateVariations inst o template tm s =
      (.ok (),
       { s with
           calls := s.calls ++ createOnlyTrace inst tm template.variants })
    := by
  unfold updateVariations
  rw [bind_apply]
  dsimp only [getS]
  rw [hex, bind_apply, buildDiffLists_all_create inst o template.variants hpt s]
  dsimp only
  rw [bind_apply]
  have hupd : postUpdateBatches o tm.woo_product_id
      (chunkList (min inst.batch_size 100) []) s = (.ok (), s) := by
    rw [chunkList_nil, postUpdateBatches, pure_apply]
  rw [hupd]
  dsimp only
  rw [bind_apply, postCreateBatches_calls inst o tm.woo_product_id tm.mid
    hids _ s]
  dsimp only [List.map_nil, List.isEmpty_nil, if_true]
  simp only [if_true]
  rw [pure_apply]
  simp [createOnlyTrace, createBatchCall]

theorem primStable_calls (Q : List RemoteCall → Prop)
    (okCall : RemoteCall → Prop)
    (hemit : ∀ calls c, okCall c → Q calls → Q (calls ++ [c])) :
    PrimStable (fun st => Q st.calls) okCall := by
  refine ⟨?_, ?_, ?_, ?_, ?_, ?_, ?_, ?_⟩
  · exact fun c hok => MPreserves.modifyM _ (fun s hs => hemit _ _ hok hs)
  · intro i t p w s r s' hP h
    unfold createVariantMapping at h
    split at h <;> (injection h with h1 h2; subst h2; exact hP)
  · intro i c w s r s' hP h
    unfold createCategoryMapping at h
    split at h <;> (injection h with h1 h2; subst h2; exact hP)
  · intro i a w s r s' hP h
    unfold createAttributeMapping at h
    split at h <;> (injection h with h1 h2; subst h2; exact hP)
  · intro i v w wa s r s' hP h
    unfold createValueMapping at h
    split at h <;> (injection h with h1 h2; subst h2; exact hP)
  · intro inst ty st tid msg
    exact MPreserves.modifyM _ (fun s hs => hs)
  · intro g hg
    refine MPreserves.modifyM _ (fun s hs => ?_)
    show Q (g s).calls
    rw [(hg s).2]
    exact hs
  · intro p
    exact MPreserves.modifyM _ (fun s hs => hs)

theorem createTemplateMapping_callsPres (Q : List RemoteCall → Prop)
    (i t w : Nat) (ty : String) :
    MPreserves (fun st => Q st.calls) (createTemplateMapping i t w ty) := by
  intro s r s' hP h
  unfold createTemplateMapping at h
  split at h
  · injection h with h1 h2; subst h2; exact hP
  · split at h <;> (injection h with h1 h2; subst h2; exact hP)

theorem cacheSetTmpl_pres {P : RunState → Prop} {okCall : RemoteCall → Prop}
    (hp : PrimStable P okCall) (tid : Nat) (m : TemplateMapping) :
    MPreserves P (cacheSetTmpl tid m) := by
  unfold cacheSetTmpl
  exact hp.cacheMod _ (fun s => ⟨rfl, rfl⟩)

theorem cachePopTmpl_pres {P : RunState → Prop} {okCall : RemoteCall → Prop}
    (hp : PrimStable P okCall) (tid : Nat) :
    MPreserves P (cachePopTmpl tid) := by
  unfold cachePopTmpl
  exact hp.cacheMod _ (fun s => ⟨rfl, rfl⟩)

theorem callsOK_bounded (inst : Instance) :
    CallsOK (varBatchBounded (min inst.batch_size 100)) inst := by
  refine ⟨?_, ?_, ?_, ?_, ?_, ?_⟩
  · intro n p; trivial
  · intro n; trivial
  · intro a n; trivial
  · intro p; trivial
  · intro w d; trivial
  · intro pid pl h; exact h

theorem createSimpleProduct_pres {P : RunState → Prop}
    {okCall : RemoteCall → Prop} {inst : Instance}
    (hp : PrimStable P okCall) (hc : CallsOK okCall inst)
    (hQtmpl : ∀ i t w ty, MPreserves P (createTemplateMapping i t w ty))
    (hpost : ∀ d, okCall (.postProducts d))
    (o : Oracle) (template : Template) :
    MPreserves P (createSimpleProduct inst o template) := by
  unfold createSimpleProduct
  cases template.variants.head? with
  | none => exact MPreserves.pureM _
  | some variant =>
    refine MPreserves.bindM (getWooCategories_pres hp hc o template)
      (fun cats => ?_)
    refine MPreserves.bindM (hp.emitOK _ (hpost _)) (fun _ => ?_)
    dsimp only
    split
    · refine MPreserves.bindM (hQtmpl _ _ _ _) (fun tm => ?_)
      refine MPreserves.bindM (cacheSetTmpl_pres hp _ _) (fun _ => ?_)
      refine MPreserves.bindM (hp.createVar _ _ _ _) (fun _ => ?_)
      exact hp.log _ _ _ _ _
    · exact MPreserves.throwM _

theorem createVariableProduct_pres {P : RunState → Prop}
    {okCall : RemoteCall → Prop} {inst : Instance}
    (hp : PrimStable P okCall) (hc : CallsOK okCall inst)
    (hQtmpl : ∀ i t w ty, MPreserves P (createTemplateMapping i t w ty))
    (hpost : ∀ d, okCall (.postProducts d))
    (o : Oracle) (template : Template) :
    MPreserves P (createVariableProduct inst o template) := by
  unfold createVariableProduct
  refine MPreserves.bindM
    (buildWooAttributeLines_pres hp hc o 0 template.attribute_lines)
    (fun attrs => ?_)
  refine MPreserves.bindM (getWooCategories_pres hp hc o template)
    (fun cats => ?_)
  refine MPreserves.bindM (hp.emitOK _ (hpost _)) (fun _ => ?_)
  dsimp only
  split
  · refine MPreserves.bindM (hQtmpl _ _ _ _) (fun tm => ?_)
    refine MPreserves.bindM (cacheSetTmpl_pres hp _ _) (fun _ => ?_)
    refine MPreserves.bindM (buildVariationsList_pres hp hc o _)
      (fun vds => ?_)
    refine MPreserves.bindM (postCreateBatches_pres hp o _ _ _ ?_)
      (fun _ => ?_)
    · intro chunk hch
      refine hc.varBatch _ _ ?_
      have := chunkList_length_le (min inst.batch_size 100) vds chunk hch
      simp only [BatchPayload.size, List.length_map, List.length_nil]
      omega
    · exact hp.log _ _ _ _ _
  · exact MPreserves.throwM _

theorem mapExistingWooProduct_pres {P : RunState → Prop}
    {okCall : RemoteCall → Prop} {inst : Instance}
    (hp : PrimStable P okCall) (hc : CallsOK okCall inst)
    (hQtmpl : ∀ i t w ty, MPreserves P (createTemplateMapping i t w ty))
    (o : Oracle) (template : Template) (wooProduct : WooProduct) :
    MPreserves P (mapExistingWooProduct inst o template wooProduct) := by
  unfold mapExistingWooProduct
  refine MPreserves.bindM (hQtmpl _ _ _ _) (fun tm => ?_)
  refine MPreserves.bindM (cacheSetTmpl_pres hp _ _) (fun _ => ?_)
  dsimp only
  split
  · refine MPreserves.bindM (hp.emitOK _ (hc.getVar _)) (fun _ => ?_)
    refine MPreserves.bindM (createMatchedVariantMappings_pres hp _ _ _ _)
      (fun _ => ?_)
    exact hp.log _ _ _ _ _
  · cases template.variants.head? with
    | some v =>
      refine MPreserves.bindM (hp.createVar _ _ _ _) (fun _ => ?_)
      refine MPreserves.bindM (MPreserves.pureM _) (fun _ => ?_)
      exact hp.log _ _ _ _ _
    | none =>
      refine MPreserves.bindM (MPreserves.pureM _) (fun _ => ?_)
      exact hp.log _ _ _ _ _

theorem createWooProduct_pres {P : RunState → Prop}
    {okCall : RemoteCall → Prop} {inst : Instance}
    (hp : PrimStable P okCall) (hc : CallsOK okCall inst)
    (hQtmpl : ∀ i t w ty, MPreserves P (createTemplateMapping i t w ty))
    (hpost : ∀ d, okCall (.postProducts d))
    (o : Oracle) (template : Template) (isVariable : Bool) (idx : SkuIndex) :
    MPreserves P (createWooProduct inst o template isVariable idx) := by
  unfold createWooProduct
  cases matchByBarcode template idx with
  | some existing => exact mapExistingWooProduct_pres hp hc hQtmpl o template existing
  | none =>
    cases isVariable with
    | true => exact createVariableProduct_pres hp hc hQtmpl hpost o template
    | false => exact createSimpleProduct_pres hp hc hQtmpl hpost o template

theorem unlinkTemplateMapping_callsPres (Q : List RemoteCall → Prop)
    (tmid : Nat) :
    MPreserves (fun st => Q st.calls) (unlinkTemplateMapping tmid) := by
  exact MPreserves.modifyM _ (fun s hs => hs)

theorem updateWooProduct_pres {P : RunState → Prop}
    {okCall : RemoteCall → Prop} {inst : Instance}
    (hp : PrimStable P okCall) (hc : CallsOK okCall inst)
    (hQtmpl : ∀ i t w ty, MPreserves P (createTemplateMapping i t w ty))
    (hpost : ∀ d, okCall (.postProducts d))
    (hun : ∀ tmid, MPreserves P (unlinkTemplateMapping tmid))
    (o : Oracle) (template : Template) (mapping : TemplateMapping)
    (isVariable : Bool) :
    MPreserves P (updateWooProduct inst o template mapping isVariable) := by
  unfold updateWooProduct
  cases template.variants.head? with
  | none => exact MPreserves.pureM _
  | some variant =>
    refine MPreserves.bindM
      (buildUpdatePayload_pres hp hc o template variant isVariable)
      (fun data => ?_)
    refine MPreserves.bindM (hp.emitOK _ (hc.put _ _)) (fun _ => ?_)
    dsimp only
    split
    · split
      · exact updateVariations_pres hp hc o template mapping
      · exact MPreserves.pureM _
    · split
      · refine MPreserves.bindM (hun _) (fun _ => ?_)
        refine MPreserves.bindM (cachePopTmpl_pres hp _) (fun _ => ?_)
        exact createWooProduct_pres hp hc hQtmpl hpost o template isVariable []
      · exact MPreserves.throwM _

theorem syncOneTemplate_pres {P : RunState → Prop}
    {okCall : RemoteCall → Prop} {inst : Instance}
    (hp : PrimStable P okCall) (hc : CallsOK okCall inst)
    (hQtmpl : ∀ i t w ty, MPreserves P (createTemplateMapping i t w ty))
    (hpost : ∀ d, okCall (.postProducts d))
    (hun : ∀ tmid, MPreserves P (unlinkTemplateMapping tmid))
    (o : Oracle) (template : Template) (skuIdx : SkuIndex) :
    MPreserves P (syncOneTemplate inst o template skuIdx) := by
  unfold syncOneTemplate
  refine MPreserves.bindM MPreserves.getSM (fun s0 => ?_)
  dsimp only
  split
  · split
    · split
      · exact MPreserves.bindM (hp.emitOK _ (hc.put _ _))
          (fun _ => MPreserves.pureM _)
      · exact MPreserves.pureM _
    · exact MPreserves.pureM _
  · split
    · exact createWooProduct_pres hp hc hQtmpl hpost o template _ skuIdx
    · exact updateWooProduct_pres hp hc hQtmpl hpost hun o template _ _

theorem pairwise_append_singleton {R : α → α → Prop} {l : List α} {x : α}
    (hl : l.Pairwise R) (hx : ∀ y ∈ l, R y x) : (l ++ [x]).Pairwise R := by
  rw [List.pairwise_append]
  refine ⟨hl, List.pairwise_singleton _ _, fun a ha b hb => ?_⟩
  rw [List.mem_singleton.mp hb]
  exact hx a ha

theorem primStable_uniq :
    PrimStable (fun st => st.db.Uniq) (fun _ => True) := by
  refine ⟨?_, ?_, ?_, ?_, ?_, ?_, ?_, ?_⟩
  · exact fun c _ => MPreserves.modifyM _ (fun s hs => hs)
  · intro i t p w s r s' hP h
    unfold createVariantMapping at h
    split at h
    · injection h with h1 h2; subst h2; exact hP
    · rename_i hguard
      injection h with h1 h2; subst h2
      obtain ⟨hT, hV, hC, hA, hVal⟩ := hP
      refine ⟨hT, pairwise_append_singleton hV ?_, hC, hA, hVal⟩
      intro y hy hcon
      exact hguard (List.any_eq_true.mpr
        ⟨y, hy, by simp [hcon.1, hcon.2]⟩)
  · intro i c w s r s' hP h
    unfold createCategoryMapping at h
    split at h
    · injection h with h1 h2; subst h2; exact hP
    · rename_i hguard
      injection h with h1 h2; subst h2
      obtain ⟨hT, hV, hC, hA, hVal⟩ := hP
      refine ⟨hT, hV, pairwise_append_singleton hC ?_, hA, hVal⟩
      intro y hy hcon
      exact hguard (List.any_eq_true.mpr
        ⟨y, hy, by simp [hcon.1, hcon.2]⟩)
  · intro i a w s r s' hP h
    unfold createAttributeMapping at h
    split at h
    · injection h with h1 h2; subst h2; exact hP
    · rename_i hguard
      injection h with h1 h2; subst h2
      obtain ⟨hT, hV, hC, hA, hVal⟩ := hP
      refine ⟨hT, hV, hC, pairwise_append_singleton hA ?_, hVal⟩
      intro y hy hcon
      exact hguard (List.any_eq_true.mpr
        ⟨y, hy, by simp [hcon.1, hcon.2]⟩)
  · intro i v w wa s r s' hP h
    unfold createValueMapping at h
    split at h
    · injection h with h1 h2; subst h2; exact hP
    · rename_i hguard
      injection h with h1 h2; subst h2
      obtain ⟨hT, hV, hC, hA, hVal⟩ := hP
      refine ⟨hT, hV, hC, hA, pairwise_append_singleton hVal ?_⟩
      intro y hy hcon
      exact hguard (List.any_eq_true.mpr
        ⟨y, hy, by simp [hcon.1, hcon.2]⟩)
  · intro inst ty st tid msg
    refine MPreserves.modifyM _ (fun s hs => ?_)
    exact hs
  · intro g hg
    refine MPreserves.modifyM _ (fun s hs => ?_)
    show (g s).db.Uniq
    rw [(hg s).1]
    exact hs
  · intro p
    refine MPreserves.modifyM _ (fun s hs => ?_)
    obtain ⟨hT, hV, hC, hA, hVal⟩ := hs
    exact ⟨hT, hV.filter _, hC, hA, hVal⟩

theorem callsOK_true (inst : Instance) :
    CallsOK (fun _ => True) inst :=
  ⟨fun _ _ => trivial, fun _ => trivial, fun _ _ => trivial, fun _ => trivial,
   fun _ _ => trivial, fun _ _ _ => trivial⟩

theorem createTemplateMapping_uniqPres (i t w : Nat) (ty : String) :
    MPreserves (fun st => st.db.Uniq) (createTemplateMapping i t w ty) := by
  intro s r s' hP h
  unfold createTemplateMapping at h
  split at h
  · injection h with h1 h2; subst h2; exact hP
  · rename_i hg1
    split at h
    · injection h with h1 h2; subst h2; exact hP
    · rename_i hg2
      injection h with h1 h2; subst h2
      obtain ⟨hT, hV, hC, hA, hVal⟩ := hP
      refine ⟨pairwise_append_singleton hT ?_, hV, hC, hA, hVal⟩
      intro y hy
      constructor
      · intro hcon
        exact hg1 (List.any_eq_true.mpr
          ⟨y, hy, by simp [hcon.1, hcon.2]⟩)
      · intro hcon
        exact hg2 (List.any_eq_true.mpr
          ⟨y, hy, by simp [hcon.1, hcon.2]⟩)

theorem unlinkTemplateMapping_uniqPres (tmid : Nat) :
    MPreserves (fun st => st.db.Uniq) (unlinkTemplateMapping tmid) := by
  refine MPreserves.modifyM _ (fun s hs => ?_)
  obtain ⟨hT, hV, hC, hA, hVal⟩ := hs
  exact ⟨hT.filter _, hV.filter _, hC, hA, hVal⟩

theorem createLog_dbPres (D : DB → Prop)
    (hlog : ∀ (db : DB) (e : LogEntry), D db →
      D { db with logs := db.logs ++ [e] })
    (inst : Instance) (ty st : String) (tid : Option Nat) (msg : String) :
    MPreserves (fun rs => D rs.db) (createLog inst ty st tid msg) :=
  MPreserves.modifyM _ (fun s hs => hlog s.db _ hs)

theorem processOneTemplate_pres (D : DB → Prop)
    (hlog : ∀ (db : DB) (e : LogEntry), D db →
      D { db with logs := db.logs ++ [e] })
    {inst : Instance} {o : Oracle} {template : Template} {skuIdx : SkuIndex}
    (hsync : MPreserves (fun rs => D rs.db)
      (syncOneTemplate inst o template skuIdx)) :
    MPreserves (fun rs => D rs.db)
      (processOneTemplate inst o template skuIdx) := by
  intro s r s' hP h
  unfold processOneTemplate at h
  rw [bind_apply] at h
  dsimp only [getS] at h
  rw [bind_apply] at h
  unfold attemptM at h
  rcases hs1 : syncOneTemplate inst o template skuIdx s with ⟨r1, s1⟩
  rw [hs1] at h
  have hP1 : D s1.db := hsync s r1 s1 hP hs1
  cases r1 with
  | ok a =>
    dsimp only at h
    rw [pure_apply] at h
    injection h with h1 h2
    subst h2
    exact hP1
  | error e =>
    dsimp only at h
    rw [bind_apply] at h
    dsimp only [modifyS] at h
    rw [bind_apply] at h
    dsimp only [createLog, modifyS] at h
    rw [pure_apply] at h
    injection h with h1 h2
    subst h2
    exact hlog s.db _ hP

theorem runChunkTemplates_pres (D : DB → Prop)
    (hlog : ∀ (db : DB) (e : LogEntry), D db →
      D { db with logs := db.logs ++ [e] })
    (inst : Instance) (o : Oracle) (skuIdx : SkuIndex) (cost : Nat → Nat)
    (hsync : ∀ template, MPreserves (fun rs => D rs.db)
      (syncOneTemplate inst o template skuIdx)) :
    ∀ (ts : List Template) (e sc ec : Nat),
      MPreserves (fun rs => D rs.db)
        (runChunkTemplates inst o skuIdx cost ts e sc ec)
  | [], e, sc, ec => by
    rw [runChunkTemplates]
    exact MPreserves.pureM _
  | t :: ts, e, sc, ec => by
    rw [runChunkTemplates]
    split
    · exact MPreserves.pureM _
    · refine MPreserves.bindM
        (processOneTemplate_pres D hlog (hsync t)) (fun ok => ?_)
      split
      · exact runChunkTemplates_pres D hlog inst o skuIdx cost hsync ts _ _ _
      · exact runChunkTemplates_pres D hlog inst o skuIdx cost hsync ts _ _ _

theorem runChunks_pres (D : DB → Prop)
    (hlog : ∀ (db : DB) (e : LogEntry), D db →
      D { db with logs := db.logs ++ [e] })
    (inst : Instance) (o : Oracle) (skuIdx : SkuIndex) (cost : Nat → Nat)
    (scope : List Template)
    (hsync : ∀ template, MPreserves (fun rs => D rs.db)
      (syncOneTemplate inst o template skuIdx)) :
    ∀ (cs : List (List Template)) (e sc ec : Nat) (sk : Bool),
      MPreserves (fun rs => D rs.db)
        (runChunks inst o skuIdx cost scope cs e sc ec sk)
  | [], e, sc, ec, sk => by
    rw [runChunks]
    exact MPreserves.pureM _
  | c :: cs, e, sc, ec, sk => by
    rw [runChunks]
    split
    · exact MPreserves.pureM _
    · refine MPreserves.bindM
        (runChunkTemplates_pres D hlog inst o skuIdx cost hsync c e sc ec)
        (fun r4 => ?_)
      refine MPreserves.bindM (MPreserves.modifyM _ (fun s hs => hs))
        (fun _ => ?_)
      exact runChunks_pres D hlog inst o skuIdx cost scope hsync cs _ _ _ _

theorem runFullSync_pres (D : DB → Prop)
    (hlog : ∀ (db : DB) (e : LogEntry), D db →
      D { db with logs := db.logs ++ [e] })
    (inst : Instance) (o : Oracle) (cost : Nat → Nat)
    (templates : List Template) (skuIdx : SkuIndex)
    (hsync : ∀ template idx, MPreserves (fun rs => D rs.db)
      (syncOneTemplate inst o template idx)) :
    MPreserves (fun rs => D rs.db)
      (runFullSync inst o cost templates skuIdx) := by
  unfold runFullSync
  refine MPreserves.bindM (MPreserves.modifyM _ (fun s hs => hs)) (fun _ => ?_)
  refine MPreserves.bindM MPreserves.getSM (fun st => ?_)
  dsimp only
  refine MPreserves.bindM
    (runChunks_pres D hlog inst o _ cost templates (fun t => hsync t _)
      (chunkList CHUNK_SIZE templates) 0 0 0 false) (fun r4 => ?_)
  refine MPreserves.bindM (createLog_dbPres D hlog inst _ _ _ _) (fun _ => ?_)
  exact MPreserves.pureM _

theorem primStable_updatePath (T0 : List TemplateMapping) (n0 : Nat) :
    PrimStable (fun st => st.db.tmplMappings = T0 ∧
      countPostProducts st.calls = n0)
      (fun c => ∀ d, c ≠ .postProducts d) := by
  refine ⟨?_, ?_, ?_, ?_, ?_, ?_, ?_, ?_⟩
  · intro c hok
    refine MPreserves.modifyM _ (fun s hs => ⟨hs.1, ?_⟩)
    show countPostProducts (s.calls ++ [c]) = n0
    have hc0 : isPostProducts c = false := by
      cases c
      case postProducts d => exact absurd rfl (hok d)
      all_goals rfl
    rw [countPostProducts, List.countP_append, List.countP_cons,
      List.countP_nil, hc0]
    simpa [countPostProducts] using hs.2
  · intro i t p w s r s' hP h
    unfold createVariantMapping at h
    split at h <;> (injection h with h1 h2; subst h2; exact hP)
  · intro i c w s r s' hP h
    unfold createCategoryMapping at h
    split at h <;> (injection h with h1 h2; subst h2; exact hP)
  · intro i a w s r s' hP h
    unfold createAttributeMapping at h
    split at h <;> (injection h with h1 h2; subst h2; exact hP)
  · intro i v w wa s r s' hP h
    unfold createValueMapping at h
    split at h <;> (injection h with h1 h2; subst h2; exact hP)
  · intro inst ty st tid msg
    exact MPreserves.modifyM _ (fun s hs => hs)
  · intro g hg
    refine MPreserves.modifyM _ (fun s hs => ⟨?_, ?_⟩)
    · show (g s).db.tmplMappings = T0
      rw [(hg s).1]
      exact hs.1
    · show countPostProducts (g s).calls = n0
      rw [(hg s).2]
      exact hs.2
  · intro p
    exact MPreserves.modifyM _ (fun s hs => hs)

theorem callsOK_noPost (inst : Instance) :
    CallsOK (fun c => ∀ d, c ≠ RemoteCall.postProducts d) inst :=
  ⟨fun _ _ _ h => RemoteCall.noConfusion h,
   fun _ _ h => RemoteCall.noConfusion h,
   fun _ _ _ h => RemoteCall.noConfusion h,
   fun _ _ h => RemoteCall.noConfusion h,
   fun _ _ _ h => RemoteCall.noConfusion h,
   fun _ _ _ _ h => RemoteCall.noConfusion h⟩

theorem updateWooProduct_success_noCreate (T0 : List TemplateMapping)
    (n0 : Nat) {inst : Instance} (o : Oracle) (template : Template)
    (mapping : TemplateMapping) (isVariable : Bool)
    (hsucc : ∀ d,
      optNatTruthy (o.putProduct mapping.woo_product_id d).rid = true) :
    MPreserves (fun st => st.db.tmplMappings = T0 ∧
      countPostProducts st.calls = n0)
      (updateWooProduct inst o template mapping isVariable) := by
  have hp := primStable_updatePath T0 n0
  have hc := callsOK_noPost inst
  unfold updateWooProduct
  cases template.variants.head? with
  | none => exact MPreserves.pureM _
  | some variant =>
    refine MPreserves.bindM
      (buildUpdatePayload_pres hp hc o template variant isVariable)
      (fun data => ?_)
    refine MPreserves.bindM
      (hp.emitOK _ (fun d h => RemoteCall.noConfusion h)) (fun _ => ?_)
    dsimp only
    rw [hsucc data]
    simp only [if_true]
    split
    · exact updateVariations_pres hp hc o template mapping
    · exact MPreserves.pureM _

theorem primStable_tmplOnly (Q1 : List TemplateMapping → Prop) :
    PrimStable (fun st => Q1 st.db.tmplMappings) (fun _ => True) := by
  refine ⟨?_, ?_, ?_, ?_, ?_, ?_, ?_, ?_⟩
  · exact fun c _ => MPreserves.modifyM _ (fun s hs => hs)
  · intro i t p w s r s' hP h
    unfold createVariantMapping at h
    split at h <;> (injection h with h1 h2; subst h2; exact hP)
  · intro i c w s r s' hP h
    unfold createCategoryMapping at h
    split at h <;> (injection h with h1 h2; subst h2; exact hP)
  · intro i a w s r s' hP h
    unfold createAttributeMapping at h
    split at h <;> (injection h with h1 h2; subst h2; exact hP)
  · intro i v w wa s r s' hP h
    unfold createValueMapping at h
    split at h <;> (injection h with h1 h2; subst h2; exact hP)
  · intro inst ty st tid msg
    exact MPreserves.modifyM _ (fun s hs => hs)
  · intro g hg
    refine MPreserves.modifyM _ (fun s hs => ?_)
    show Q1 (g s).db.tmplMappings
    rw [(hg s).1]
    exact hs
  · intro p
    exact MPreserves.modifyM _ (fun s hs => hs)

theorem countPostProducts_append_nonPost (calls : List RemoteCall)
    (c : RemoteCall) (hok : ∀ d, c ≠ RemoteCall.postProducts d) :
    countPostProducts (calls ++ [c]) = countPostProducts calls := by
  have hc0 : isPostProducts c = false := by
    cases c
    case postProducts d => exact absurd rfl (hok d)
    all_goals rfl
  rw [countPostProducts, List.countP_append, List.countP_cons,
    List.countP_nil, hc0]
  simp [countPostProducts]

theorem createTemplateMapping_ok (i t w : Nat) (ty : String) (s : RunState)
    (h1 : (s.db.tmplMappings.any
      (fun m => m.instance_id == i && m.product_tmpl_id == t)) = false)
    (h2 : (s.db.tmplMappings.any
      (fun m => m.instance_id == i && m.woo_product_id == w)) = false) :
    createTemplateMapping i t w ty s =
      (.ok { mid := s.nextId, instance_id := i, product_tmpl_id := t,
             woo_product_id := w, woo_product_type := ty },
       { s with
           nextId := s.nextId + 1,
           db := { s.db with tmplMappings := s.db.tmplMappings ++
             [{ mid := s.nextId, instance_id := i, product_tmpl_id := t,
                woo_product_id := w, woo_product_type := ty }] } }) := by
  unfold createTemplateMapping
  rw [h1, h2]
  rfl

theorem matchByBarcode_isSome_of_key (template : Template) (idx : SkuIndex)
    (hkey : (strTruthy template.barcode = true ∧
        (lookupStr idx (pyStrip (template.barcode.getD ""))).isSome = true) ∨
      (∃ v ∈ template.variants, strTruthy v.barcode = true ∧
        (lookupStr idx (pyStrip (v.barcode.getD ""))).isSome = true)) :
    ∃ p, matchByBarcode template idx = some p := by
  have hvar : ∀ (vs : List Variant),
      (∃ v ∈ vs, strTruthy v.barcode = true ∧
        (lookupStr idx (pyStrip (v.barcode.getD ""))).isSome = true) →
      ∃ p, matchVariantsByBarcode idx vs = some p := by
    intro vs
    induction vs with
    | nil => intro h; simp at h
    | cons v rest ih =>
      intro h
      rcases h with ⟨v', hv', ht', hk'⟩
      rw [matchVariantsByBarcode]
      rcases List.mem_cons.mp hv' with h1 | h2
      · subst h1
        rw [ht']
        obtain ⟨p, hp⟩ := Option.isSome_iff_exists.mp hk'
        rw [hp]
        exact ⟨p, rfl⟩
      · by_cases htv : strTruthy v.barcode = true
        · rw [htv]
          cases hl : lookupStr idx (pyStrip (v.barcode.getD "")) with
          | some p => exact ⟨p, rfl⟩
          | none => exact ih ⟨v', h2, ht', hk'⟩
        · rw [Bool.not_eq_true] at htv
          rw [htv]
          exact ih ⟨v', h2, ht', hk'⟩
  have hne : List.isEmpty idx = false := by
    rcases hkey with ⟨-, hk⟩ | ⟨v, -, -, hk⟩ <;>
      exact lookupStr_isSome_ne_nil hk
  unfold matchByBarcode
  rw [hne]
  rcases hkey with ⟨ht, hk⟩ | hv
  · rw [ht]
    obtain ⟨p, hp⟩ := Option.isSome_iff_exists.mp hk
    rw [hp]
    exact ⟨p, by simp⟩
  · by_cases ht : strTruthy template.barcode = true
    · rw [ht]
      cases hl : lookupStr idx (pyStrip (template.barcode.getD "")) with
      | some p => exact ⟨p, by simp⟩
      | none =>
        simpa using hvar template.variants hv
    · rw [Bool.not_eq_true] at ht
      rw [ht]
      simpa using hvar template.variants hv

theorem mapExisting_adds_mapping (inst : Instance) (o : Oracle)
    (template : Template) (p : WooProduct) (s : RunState)
    (r : Except String Unit) (s' : RunState)
    (h1 : (s.db.tmplMappings.any (fun m =>
      m.instance_id == inst.id && m.product_tmpl_id == template.id)) = false)
    (h2 : (s.db.tmplMappings.any (fun m =>
      m.instance_id == inst.id && m.woo_product_id == p.id)) = false)
    (hrun : mapExistingWooProduct inst o template p s = (r, s')) :
    mappedTo inst template p s'.db.tmplMappings := by
  have hp := primStable_tmplOnly (fun l => mappedTo inst template p l)
  have key : ∀ (g : M Unit) (s0 : RunState),
      MPreserves (fun st => mappedTo inst template p st.db.tmplMappings) g →
      mappedTo inst template p s0.db.tmplMappings →
      g s0 = (r, s') → mappedTo inst template p s'.db.tmplMappings :=
    fun g s0 hg h0 h => hg s0 r s' h0 h
  unfold mapExistingWooProduct at hrun
  dsimp only at hrun
  rw [bind_apply] at hrun
  rw [createTemplateMapping_ok inst.id template.id p.id _ s h1 h2] at hrun
  dsimp only at hrun
  refine key _ _ ?_ ?_ hrun
  · refine MPreserves.bindM (cacheSetTmpl_pres hp _ _) (fun _ => ?_)
    dsimp only
    split
    · refine MPreserves.bindM (hp.emitOK _ trivial) (fun _ => ?_)
      refine MPreserves.bindM (createMatchedVariantMappings_pres hp _ _ _ _)
        (fun _ => ?_)
      exact hp.log _ _ _ _ _
    · cases template.variants.head? with
      | some v =>
        refine MPreserves.bindM (hp.createVar _ _ _ _) (fun _ => ?_)
        refine MPreserves.bindM (MPreserves.pureM _) (fun _ => ?_)
        exact hp.log _ _ _ _ _
      | none =>
        refine MPreserves.bindM (MPreserves.pureM _) (fun _ => ?_)
        exact hp.log _ _ _ _ _
  · unfold mappedTo
    exact ⟨_, List.mem_append_right _ (List.mem_singleton_self _),
      rfl, rfl, rfl⟩

theorem filter_tmpl_length_le_one (i t : Nat) :
    ∀ l : List TemplateMapping, l.Pairwise tmplOK →
      (l.filter
        (fun m => m.instance_id == i && m.product_tmpl_id == t)).length ≤ 1
  | [], _ => by simp
  | a :: l, h => by
    obtain ⟨ha, hl⟩ := List.pairwise_cons.mp h
    rw [List.filter_cons]
    by_cases hp : (a.instance_id == i && a.product_tmpl_id == t) = true
    · rw [if_pos hp]
      have hz : l.filter
          (fun m => m.instance_id == i && m.product_tmpl_id == t) = [] := by
        rw [List.filter_eq_nil_iff]
        intro b hb hpb
        have h1 : a.instance_id = i ∧ a.product_tmpl_id = t := by
          simpa using hp
        have h2 : b.instance_id = i ∧ b.product_tmpl_id = t := by
          simpa using hpb
        exact (ha b hb).1 ⟨h1.1.trans h2.1.symm, h1.2.trans h2.2.symm⟩
      rw [hz]
      simp
    · rw [if_neg hp]
      exact filter_tmpl_length_le_one i t l hl

theorem tmplCountFor_le_one (db : DB) (i t : Nat) (h : db.Uniq) :
    tmplCountFor db i t ≤ 1 :=
  filter_tmpl_length_le_one i t db.tmplMappings h.1

theorem attemptM_ok (x : M α) (s : RunState) :
    ∃ v s1, attemptM x s = (.ok v, s1) := by
  unfold attemptM
  rcases hx : x s with ⟨r, s1⟩
  cases r
  · exact ⟨_, _, rfl⟩
  · exact ⟨_, _, rfl⟩

theorem processOneTemplate_ok (inst : Instance) (o : Oracle)
    (template : Template) (skuIdx : SkuIndex) (s : RunState) :
    ∃ b s1, processOneTemplate inst o template skuIdx s = (.ok b, s1) := by
  unfold processOneTemplate
  rw [bind_apply]
  dsimp only [getS]
  rw [bind_apply]
  obtain ⟨v, s1, hv⟩ := attemptM_ok (syncOneTemplate inst o template skuIdx) s
  rw [hv]
  dsimp only
  cases v
  · exact ⟨_, _, rfl⟩
  · exact ⟨_, _, rfl⟩

theorem runChunkTemplates_ok (inst : Instance) (o : Oracle)
    (skuIdx : SkuIndex) (cost : Nat → Nat) :
    ∀ (ts : List Template) (elapsed success errors : Nat) (s : RunState),
      ∃ v s1, runChunkTemplates inst o skuIdx cost ts elapsed success errors s
        = (.ok v, s1)
  | [], e, su, er, s => ⟨(e, su, er, false), s, rfl⟩
  | t :: ts, e, su, er, s => by
    rw [runChunkTemplates]
    by_cases h : e > MAX_CRON_SECONDS
    · rw [if_pos h]
      exact ⟨_, _, rfl⟩
    · rw [if_neg h]
      rw [bind_apply]
      obtain ⟨b, s1, hb⟩ := processOneTemplate_ok inst o t skuIdx s
      rw [hb]
      dsimp only
      cases b
      · exact runChunkTemplates_ok inst o skuIdx cost ts (e + cost t.id)
          su (er + 1) s1
      · exact runChunkTemplates_ok inst o skuIdx cost ts (e + cost t.id)
          (su + 1) er s1

theorem runChunks_ok (inst : Instance) (o : Oracle) (skuIdx : SkuIndex)
    (cost : Nat → Nat) (scope : List Template) :
    ∀ (cs : List (List Template)) (elapsed success errors : Nat)
      (skipped : Bool) (s : RunState),
      ∃ v s1, runChunks inst o skuIdx cost scope cs elapsed success errors
        skipped s = (.ok v, s1)
  | [], e, su, er, sk, s => ⟨(e, su, er, sk), s, rfl⟩
  | c :: cs, e, su, er, sk, s => by
    rw [runChunks]
    by_cases h : e > MAX_CRON_SECONDS
    · rw [if_pos h]
      exact ⟨_, _, rfl⟩
    · rw [if_neg h]
      rw [bind_apply]
      obtain ⟨v, s1, hv⟩ := runChunkTemplates_ok inst o skuIdx cost c e su er s
      rw [hv]
      dsimp only
      rw [bind_apply]
      rw [show (modifyS fun st =>
          { st with cache := buildCache inst st.db scope }) s1 =
        (.ok (), { s1 with cache := buildCache inst s1.db scope }) from rfl]
      dsimp only
      exact runChunks_ok inst o skuIdx cost scope cs v.1 v.2.1 v.2.2.1
        (sk || v.2.2.2) _

theorem find?_filter_ne (l : List VariantMapping) (a b : Nat) (hab : b ≠ a) :
    (l.filter (fun vm => vm.product_id != a)).find?
      (fun vm => vm.product_id == b) =
    l.find? (fun vm => vm.product_id == b) := by
  induction l with
  | nil => rfl
  | cons vm l ih =>
    have hba : a ≠ b := fun h => hab h.symm
    by_cases hva : vm.product_id = a
    · have h2 : (vm.product_id == b) = false := by
        simp only [beq_eq_false_iff_ne, ne_eq, hva]
        exact hba
      simp [List.filter_cons, hva, List.find?_cons, h2, ih, hba]
    · by_cases hvb : vm.product_id = b
      · simp [List.filter_cons, hva, List.find?_cons, hvb, hab]
      · simp [List.filter_cons, hva, List.find?_cons, hvb, ih]

theorem any_filter_ne (l : List VariantMapping) (a b : Nat) (hab : b ≠ a) :
    (l.filter (fun vm => vm.product_id != a)).any
      (fun vm => vm.product_id == b) =
    l.any (fun vm => vm.product_id == b) := by
  induction l with
  | nil => rfl
  | cons vm l ih =>
    have hba : a ≠ b := fun h => hab h.symm
    by_cases hva : vm.product_id = a
    · have h2 : (vm.product_id == b) = false := by
        simp only [beq_eq_false_iff_ne, ne_eq, hva]
        exact hba
      simp [List.filter_cons, hva, h2, ih, hba]
    · simp [List.filter_cons, hva, ih]

-- -----------------------------------------------------------------------
-- C10
-- -----------------------------------------------------------------------

/-- C10: for every product and every configured stock metric, when the
instance's stock source is `specific` and its configured warehouse set is
empty, `_get_product_qty` resolves the exported stock quantity to 0. -/
theorem c10_specific_empty_warehouses_qty_zero
    (inst : Instance) (product : Variant)
    (hsource : inst.stock_source = .specific)
    (hwh : inst.warehouse_ids = []) :
    getProductQty inst product = 0 := by
  simp [getProductQty, hsource, hwh]

theorem c10_witness :
    instC10.stock_source = .specific ∧ instC10.warehouse_ids = [] ∧
    getProductQty instC10 variantC10 = 0 :=
  ⟨rfl, rfl,
    c10_specific_empty_warehouses_qty_zero instC10 variantC10 rfl rfl⟩

-- -----------------------------------------------------------------------
-- C7
-- -----------------------------------------------------------------------

/-- C7: when the (truthy) template-level barcode is a key of the remote
SKU index, `_match_by_barcode` returns the record indexed by the
template-level barcode, even if variant-level barcodes are also keys:
template-level match takes priority and a single record is chosen. -/
theorem c7_template_barcode_priority
    (template : Template) (idx : SkuIndex) (p : WooProduct)
    (ht : strTruthy template.barcode)
    (hkey : lookupStr idx (pyStrip (template.barcode.getD "")) = some p)
    (hvar : ∃ v ∈ template.variants, strTruthy v.barcode ∧
      (lookupStr idx (pyStrip (v.barcode.getD ""))).isSome) :
    matchByBarcode template idx = some p := by
  have hne : List.isEmpty idx = false :=
    lookupStr_isSome_ne_nil (by rw [hkey]; rfl)
  unfold matchByBarcode
  rw [hne, ht]
  simp only [Bool.false_eq_true, if_false, if_true, hkey]

theorem c7_witness :
    strTruthy tmplC7.barcode = true ∧
    lookupStr idxC7 (pyStrip (tmplC7.barcode.getD "")) =
      some { id := 100, ptype := "simple" } ∧
    (∃ v ∈ tmplC7.variants, strTruthy v.barcode = true ∧
      (lookupStr idxC7 (pyStrip (v.barcode.getD ""))).isSome = true) ∧
    matchByBarcode tmplC7 idxC7 = some { id := 100, ptype := "simple" } := by
  refine ⟨by decide, by decide, ?_, ?_⟩
  · exact ⟨{ id := 1, barcode := some "B1" }, by simp [tmplC7], by decide,
      by decide⟩
  · exact c7_template_barcode_priority tmplC7 idxC7 _ (by decide) (by decide)
      ⟨{ id := 1, barcode := some "B1" }, by simp [tmplC7], by decide, by decide⟩

-- -----------------------------------------------------------------------
-- C4
-- -----------------------------------------------------------------------

/-- C4: the variation differ partitions correctly.  For live variants with
distinct ids, the update list consists exactly of the variants that have an
existing VariantMapping (each payload carrying that mapping's remote
variation id), the create list of those that have none, and the leftover
mappings — whose remote variation ids become the delete set — are exactly
the mappings whose variant is no longer in the live set. -/
theorem natBeq_comm (a b : Nat) : (a == b) = (b == a) := by
  by_cases h : a = b
  · simp [h]
  · have h2 : ¬b = a := fun hh => h hh.symm
    simp [h, h2]

theorem c4_variation_diff_partition
    (inst : Instance) (o : Oracle) (existing : List VariantMapping)
    (variants : List Variant) (s s' : RunState)
    (u : List (VariantMapping × VariationData))
    (c : List (Variant × VariationData)) (rem : List VariantMapping)
    (hnodup : (variants.map Variant.id).Nodup)
    (hrun : buildDiffLists inst o existing variants s = (.ok (u, c, rem), s')) :
    u.map Prod.fst = variants.filterMap
      (fun v => existing.find? (fun vm => vm.product_id == v.id)) ∧
    (∀ x ∈ u, x.2.vid = some x.1.woo_variation_id) ∧
    c.map Prod.fst = variants.filter
      (fun v => !existing.any (fun vm => vm.product_id == v.id)) ∧
    rem = existing.filter
      (fun vm => !variants.any (fun v => v.id == vm.product_id)) := by
  induction variants generalizing existing u c rem s s' with
  | nil =>
    rw [buildDiffLists, pure_apply] at hrun
    rw [Prod.mk.injEq] at hrun
    obtain ⟨h1, -⟩ := hrun
    rw [Except.ok.injEq, Prod.mk.injEq, Prod.mk.injEq] at h1
    obtain ⟨hu, hc, hrem⟩ := h1
    subst hu hc hrem
    simp
  | cons v vs ih =>
    rw [buildDiffLists, bind_apply] at hrun
    rcases hbd : buildVariationData inst o v s with ⟨r1, s1⟩
    rw [hbd] at hrun
    cases r1 with
    | error e => simp at hrun
    | ok d =>
      simp only [List.map_cons, List.nodup_cons, List.mem_map] at hnodup
      obtain ⟨hvnotin, hnodup'⟩ := hnodup
      cases hf : existing.find? (fun vm => vm.product_id == v.id) with
      | some vm =>
        dsimp only at hrun
        simp only [hf] at hrun
        rw [bind_apply] at hrun
        rcases hrec : buildDiffLists inst o
            (existing.filter (fun vm2 => vm2.product_id != v.id)) vs s1
          with ⟨r2, s2⟩
        rw [hrec] at hrun
        cases r2 with
        | error e => simp at hrun
        | ok trip =>
          dsimp only at hrun
          rw [pure_apply, Prod.mk.injEq] at hrun
          obtain ⟨h1, -⟩ := hrun
          rw [Except.ok.injEq, Prod.mk.injEq, Prod.mk.injEq] at h1
          obtain ⟨hu, hc, hrem⟩ := h1
          obtain ⟨ih1, ih2, ih3, ih4⟩ :=
            ih (existing.filter (fun vm2 => vm2.product_id != v.id))
              s1 s2 trip.1 trip.2.1 trip.2.2 hnodup' hrec
          have hvany : existing.any (fun vm2 => vm2.product_id == v.id) = true := by
            have hp := List.find?_some hf
            have hm := List.mem_of_find?_eq_some hf
            exact List.any_eq_true.mpr ⟨vm, hm, hp⟩
          subst hu hc hrem
          refine ⟨?_, ?_, ?_, ?_⟩
          · simp only [List.map_cons, List.filterMap_cons, hf, ih1]
            congr 1
            exact List.filterMap_congr (fun v' hv' =>
              find?_filter_ne existing v.id v'.id
                (fun h => hvnotin ⟨v', hv', h⟩))
          · intro x hx
            rcases List.mem_cons.mp hx with hx1 | hx2
            · subst hx1; rfl
            · exact ih2 x hx2
          · rw [List.filter_cons]
            simp only [hvany, Bool.not_true, Bool.false_eq_true, if_false]
            rw [ih3]
            exact List.filter_congr (fun v' hv' =>
              congrArg (fun b => !b) (any_filter_ne existing v.id v'.id
                (fun h => hvnotin ⟨v', hv', h⟩)))
          · rw [ih4, List.filter_filter]
            refine List.filter_congr (fun vm2 hvm2 => ?_)
            simp only [List.any_cons, Bool.not_or]
            rw [natBeq_comm v.id vm2.product_id, Bool.and_comm]
            rfl
      | none =>
        dsimp only at hrun
        simp only [hf] at hrun
        rw [bind_apply] at hrun
        rcases hrec : buildDiffLists inst o existing vs s1 with ⟨r2, s2⟩
        rw [hrec] at hrun
        cases r2 with
        | error e => simp at hrun
        | ok trip =>
          dsimp only at hrun
          rw [pure_apply, Prod.mk.injEq] at hrun
          obtain ⟨h1, -⟩ := hrun
          rw [Except.ok.injEq, Prod.mk.injEq, Prod.mk.injEq] at h1
          obtain ⟨hu, hc, hrem⟩ := h1
          obtain ⟨ih1, ih2, ih3, ih4⟩ :=
            ih existing s1 s2 trip.1 trip.2.1 trip.2.2 hnodup' hrec
          have hnone : ∀ vm ∈ existing, (vm.product_id == v.id) = false := by
            intro vm hvm
            simpa using List.find?_eq_none.mp hf vm hvm
          have hvany : existing.any (fun vm2 => vm2.product_id == v.id) = false := by
            simp only [List.any_eq_false]
            intro vm hvm
            simp [hnone vm hvm]
          subst hu hc hrem
          refine ⟨?_, ih2, ?_, ?_⟩
          · simp only [List.filterMap_cons, hf, ih1]
          · rw [List.filter_cons]
            simp only [hvany, Bool.not_false, if_true, List.map_cons]
            rw [ih3]
          · rw [ih4]
            refine List.filter_congr (fun vm2 hvm2 => ?_)
            simp only [List.any_cons, Bool.not_or]
            rw [natBeq_comm v.id vm2.product_id, hnone vm2 hvm2]
            rfl

theorem c4_witness :
    (varsC4.map Variant.id).Nodup ∧
    buildDiffLists instC4 trivialOracle existC4 varsC4 {} =
      (.ok (uC4, cC4, remC4), {}) ∧
    uC4.map Prod.fst = [mBC4, mCC4] ∧
    (∀ x ∈ uC4, x.2.vid = some x.1.woo_variation_id) ∧
    cC4.map Prod.fst = [vDC4] ∧
    remC4.map VariantMapping.woo_variation_id = [11] := by
  have h := c4_variation_diff_partition instC4 trivialOracle existC4 varsC4
    {} {} uC4 cC4 remC4 (by decide) rfl
  refine ⟨by decide, rfl, ?_, h.2.1, ?_, ?_⟩
  · rw [h.1]; decide
  · rw [h.2.2.1]; rfl
  · rw [h.2.2.2]; decide

-- -----------------------------------------------------------------------
-- C6
-- -----------------------------------------------------------------------

theorem c6_run_eq :
    updateVariations instC6 trivialOracle tmplC6 tmC6 {} =
      (.ok (), { calls := createOnlyTrace instC6 tmC6 tmplC6.variants }) := by
  have hpt : ∀ v ∈ tmplC6.variants, v.ptavs = [] := by
    intro v hv
    simp only [tmplC6, varsC6, List.mem_map] at hv
    obtain ⟨i, -, rfl⟩ := hv
    rfl
  have heq := updateVariations_create_only instC6 trivialOracle tmplC6 tmC6 {}
    rfl hpt (fun p pl => rfl)
  rw [heq]
  rfl

theorem c6_count_eq :
    (createOnlyTrace instC6 tmC6 tmplC6.variants).countP isCreateBatch = 2 := by
  have hlen : (tmplC6.variants.map
      (fun v => (v, pureVariationData instC6 v))).length = 120 := by
    simp [tmplC6, varsC6]
  have hcount : ∀ c ∈ createOnlyTrace instC6 tmC6 tmplC6.variants,
      isCreateBatch c = true := by
    intro c hc
    simp only [createOnlyTrace, List.mem_map] at hc
    obtain ⟨ch, hch, rfl⟩ := hc
    have hne := chunkList_ne_nil (min instC6.batch_size 100) (by decide)
      _ ch hch
    cases ch with
    | nil => exact absurd rfl hne
    | cons a t => rfl
  rw [List.countP_eq_length.mpr hcount]
  simp only [createOnlyTrace, List.length_map]
  rw [chunkList_length _ (by decide), hlen]
  decide

/-- C6 counterexample: with batch size configured to 250 and 120 variants
to create, two create batches are issued, not one (the claim's "only one
create batch is issued" is false at this input; the code sends two
batches of at most 100). -/
theorem c6_counterexample :
    instC6.batch_size = 250 ∧
    tmplC6.variants.length = 120 ∧
    (updateVariations instC6 trivialOracle tmplC6 tmC6 {}).1 = .ok () ∧
    (updateVariations instC6 trivialOracle tmplC6 tmC6 {}).2.calls.countP
      isCreateBatch = 2 ∧
    (2 : Nat) ≠ 1 := by
  refine ⟨rfl, by simp [tmplC6, varsC6], ?_, ?_, by decide⟩
  · rw [c6_run_eq]
  · rw [c6_run_eq]
    exact c6_count_eq

/-- C6 (amended): every remote `variations/batch` call submitted by the
variation sync — update, create or delete sets, on the creation path and
the update path alike — carries at most `min(instance.batchSize, 100)`
items; in the concrete scenario with batch size 250 and 120 variants to
create, two create batches of at most 100 items are issued. -/
theorem c6_variation_batch_cap :
    (∀ (inst : Instance) (o : Oracle) (template : Template)
      (tm : TemplateMapping) (s s' : RunState) (r : Except String Unit),
      updateVariations inst o template tm s = (r, s') →
      ∀ c ∈ s'.calls, c ∈ s.calls ∨
        varBatchBounded (min inst.batch_size 100) c) ∧
    (∀ (inst : Instance) (o : Oracle) (template : Template)
      (s s' : RunState) (r : Except String Unit),
      createVariableProduct inst o template s = (r, s') →
      ∀ c ∈ s'.calls, c ∈ s.calls ∨
        varBatchBounded (min inst.batch_size 100) c) ∧
    (updateVariations instC6 trivialOracle tmplC6 tmC6 {}).2.calls.countP
      isCreateBatch = 2 := by
  have hps : ∀ (inst : Instance) (s : RunState),
      PrimStable (fun st => ∀ c ∈ st.calls, c ∈ s.calls ∨
        varBatchBounded (min inst.batch_size 100) c)
        (varBatchBounded (min inst.batch_size 100)) := by
    intro inst s
    refine primStable_calls
      (fun calls => ∀ c ∈ calls, c ∈ s.calls ∨
        varBatchBounded (min inst.batch_size 100) c)
      (varBatchBounded (min inst.batch_size 100)) ?_
    intro calls c hok hQ c' hc'
    rcases List.mem_append.mp hc' with h1 | h2
    · exact hQ c' h1
    · rw [List.mem_singleton.mp h2]
      exact Or.inr hok
  refine ⟨?_, ?_, ?_⟩
  · intro inst o template tm s s' r hrun
    exact updateVariations_pres (hps inst s) (callsOK_bounded inst) o
      template tm s r s' (fun c hc => Or.inl hc) hrun
  · intro inst o template s s' r hrun
    exact createVariableProduct_pres (hps inst s) (callsOK_bounded inst)
      (fun i t w ty => createTemplateMapping_callsPres
        (fun calls => ∀ c ∈ calls, c ∈ s.calls ∨
          varBatchBounded (min inst.batch_size 100) c) i t w ty)
      (fun d => trivial) o template s r s' (fun c hc => Or.inl hc) hrun
  · rw [c6_run_eq]
    exact c6_count_eq

theorem c6_witness :
    c6wCall ∈ (updateVariations instC6w trivialOracle tmplC6w tmC6w {}).2.calls ∧
    (c6wCall ∈ ({} : RunState).calls ∨
      varBatchBounded (min instC6w.batch_size 100) c6wCall) := by
  have hmem : c6wCall ∈
      (updateVariations instC6w trivialOracle tmplC6w tmC6w {}).2.calls := by
    have hpt : ∀ v ∈ tmplC6w.variants, v.ptavs = [] := by
      intro v hv
      simp only [tmplC6w, List.mem_singleton] at hv
      subst hv
      rfl
    have heq := updateVariations_create_only instC6w trivialOracle tmplC6w
      tmC6w {} rfl hpt (fun p pl => rfl)
    rw [heq]
    decide
  exact ⟨hmem, c6_variation_batch_cap.1 instC6w trivialOracle tmplC6w tmC6w
    {} (updateVariations instC6w trivialOracle tmplC6w tmC6w {}).2
    (updateVariations instC6w trivialOracle tmplC6w tmC6w {}).1 rfl
    c6wCall hmem⟩

-- -----------------------------------------------------------------------
-- C1
-- -----------------------------------------------------------------------

/-- C1: idempotence of full sync at the unit level.  A template that
already has a TemplateMapping in the cache is classified AlreadyMapped and
takes the update path; when the remote update responds with an id (the
no-remote-change case of a second run), the sync issues no
product-creation call and creates no new TemplateMapping. -/
theorem c1_already_mapped_update_path
    (inst : Instance) (o : Oracle) (template : Template) (skuIdx : SkuIndex)
    (s : RunState) (m : TemplateMapping)
    (hmap : lookupNat s.cache.tmpl_map template.id = some m)
    (hact : template.active = true)
    (hsucc : ∀ d,
      optNatTruthy (o.putProduct m.woo_product_id d).rid = true) :
    reconcileDecision s.cache template skuIdx = .alreadyMapped m ∧
    ∀ r s', syncOneTemplate inst o template skuIdx s = (r, s') →
      s'.db.tmplMappings = s.db.tmplMappings ∧
      countPostProducts s'.calls = countPostProducts s.calls := by
  constructor
  · unfold reconcileDecision
    rw [hmap]
  · intro r s' hrun
    have heq : syncOneTemplate inst o template skuIdx s =
        updateWooProduct inst o template m (isVariableProduct template) s := by
      unfold syncOneTemplate
      rw [bind_apply]
      dsimp only [getS]
      rw [hmap, hact]
      simp
    rw [heq] at hrun
    exact updateWooProduct_success_noCreate s.db.tmplMappings
      (countPostProducts s.calls) o template m (isVariableProduct template)
      hsucc s r s' ⟨rfl, rfl⟩ hrun

theorem c1_witness :
    lookupNat sC1.cache.tmpl_map tmplC1.id = some mC1 ∧
    tmplC1.active = true ∧
    reconcileDecision sC1.cache tmplC1 [] = .alreadyMapped mC1 ∧
    (syncOneTemplate instC1 oC1 tmplC1 [] sC1).2.db.tmplMappings =
      sC1.db.tmplMappings ∧
    countPostProducts (syncOneTemplate instC1 oC1 tmplC1 [] sC1).2.calls =
      countPostProducts sC1.calls := by
  have h := c1_already_mapped_update_path instC1 oC1 tmplC1 [] sC1 mC1
    rfl rfl (fun d => rfl)
  have h2 := h.2 (syncOneTemplate instC1 oC1 tmplC1 [] sC1).1
    (syncOneTemplate instC1 oC1 tmplC1 [] sC1).2 rfl
  exact ⟨rfl, rfl, h.1, h2.1, h2.2⟩

-- -----------------------------------------------------------------------
-- C3
-- -----------------------------------------------------------------------

/-- C3: the mapping uniqueness invariant — per instance no two
TemplateMappings share a (instance, template) or (instance, remote
product id) pair, and variant, category, attribute and attribute-value
mappings are unique per (instance, local entity) — is preserved by every
per-template sync operation and by the full-sync driver. -/
theorem c3_mapping_uniqueness :
    (∀ (inst : Instance) (o : Oracle) (template : Template)
      (skuIdx : SkuIndex) (s s' : RunState) (r : Except String Unit),
      s.db.Uniq → syncOneTemplate inst o template skuIdx s = (r, s') →
      s'.db.Uniq) ∧
    (∀ (inst : Instance) (o : Oracle) (cost : Nat → Nat)
      (templates : List Template) (skuIdx : SkuIndex) (s s' : RunState)
      (r : Except String (Nat × Nat × Bool)),
      s.db.Uniq → runFullSync inst o cost templates skuIdx s = (r, s') →
      s'.db.Uniq) := by
  have hsync : ∀ (inst : Instance) (o : Oracle) (template : Template)
      (idx : SkuIndex), MPreserves (fun rs => rs.db.Uniq)
        (syncOneTemplate inst o template idx) := by
    intro inst o template idx
    exact syncOneTemplate_pres primStable_uniq (callsOK_true inst)
      (fun i t w ty => createTemplateMapping_uniqPres i t w ty)
      (fun d => trivial) (fun tmid => unlinkTemplateMapping_uniqPres tmid)
      o template idx
  constructor
  · intro inst o template skuIdx s s' r hU hrun
    exact hsync inst o template skuIdx s r s' hU hrun
  · intro inst o cost templates skuIdx s s' r hU hrun
    exact runFullSync_pres _ (fun db e h => h) inst o cost templates skuIdx
      (fun t idx => hsync inst o t idx) s r s' hU hrun

theorem c3_witness :
    DB.Uniq ({} : RunState).db ∧
    DB.Uniq (syncOneTemplate instC3 trivialOracle tmplC3 [] {}).2.db := by
  have hU : DB.Uniq ({} : RunState).db :=
    ⟨List.Pairwise.nil, List.Pairwise.nil, List.Pairwise.nil,
     List.Pairwise.nil, List.Pairwise.nil⟩
  exact ⟨hU, c3_mapping_uniqueness.1 instC3 trivialOracle tmplC3 [] {}
    (syncOneTemplate instC3 trivialOracle tmplC3 [] {}).2
    (syncOneTemplate instC3 trivialOracle tmplC3 [] {}).1 hU rfl⟩

-- -----------------------------------------------------------------------
-- C9
-- -----------------------------------------------------------------------

/-- C9 counterexample: for a concrete template with no variant, both the
creation path and the update path return `ok` — no failure is surfaced to
the caller (refuting the claim), while indeed no remote call is issued and
no log entry is written. -/
theorem c9_counterexample :
    isErrorResult (createSimpleProduct instC9 trivialOracle tmplC9 {}) =
      false ∧
    (createSimpleProduct instC9 trivialOracle tmplC9 {}).2.db.logs = [] ∧
    (createSimpleProduct instC9 trivialOracle tmplC9 {}).2.calls = [] ∧
    isErrorResult
      (updateWooProduct instC9 trivialOracle tmplC9 mapC9 false {}) = false ∧
    (updateWooProduct instC9 trivialOracle tmplC9 mapC9 false {}).2.db.logs
      = [] ∧
    (updateWooProduct instC9 trivialOracle tmplC9 mapC9 false {}).2.calls
      = [] :=
  ⟨rfl, rfl, rfl, rfl, rfl, rfl⟩

/-- C9 (amended): for every sync of a template that has no variant, the
unit returns immediately to the caller with no remote interaction and no
log entry — but no failure is signaled: the unit completes as a silent
no-op (the state is left untouched). -/
theorem c9_no_variant_silent_noop (inst : Instance) (o : Oracle)
    (template : Template) (mapping : TemplateMapping) (isVariable : Bool)
    (s : RunState) (hnov : template.variants = []) :
    createSimpleProduct inst o template s = (.ok (), s) ∧
    updateWooProduct inst o template mapping isVariable s = (.ok (), s) := by
  constructor
  · unfold createSimpleProduct
    rw [hnov]
    rfl
  · unfold updateWooProduct
    rw [hnov]
    rfl

theorem c9_witness :
    tmplC9.variants = [] ∧
    createSimpleProduct instC9 trivialOracle tmplC9 {} = (.ok (), {}) ∧
    updateWooProduct instC9 trivialOracle tmplC9 mapC9 false {} =
      (.ok (), {}) :=
  ⟨rfl,
    (c9_no_variant_silent_noop instC9 trivialOracle tmplC9 mapC9 false {}
      rfl).1,
    (c9_no_variant_silent_noop instC9 trivialOracle tmplC9 mapC9 false {}
      rfl).2⟩

-- -----------------------------------------------------------------------
-- C2
-- -----------------------------------------------------------------------

/-- C2: reconciliation correctness.  For an active template with no
TemplateMapping in the cache whose template barcode or some variant
barcode is a key of the remote SKU index, the barcode match selects an
existing remote product `p`, the decision is MatchFound, and (when no
conflicting mapping rows block the uniqueness constraints) every run of
`syncOneTemplate` records a TemplateMapping pointing at `p.id` and issues
no product-creation call. -/
theorem c2_reconciliation_maps_existing
    (inst : Instance) (o : Oracle) (template : Template) (idx : SkuIndex)
    (s : RunState)
    (hact : template.active = true)
    (hnomap : lookupNat s.cache.tmpl_map template.id = none)
    (hkey : (strTruthy template.barcode = true ∧
        (lookupStr idx (pyStrip (template.barcode.getD ""))).isSome = true) ∨
      (∃ v ∈ template.variants, strTruthy v.barcode = true ∧
        (lookupStr idx (pyStrip (v.barcode.getD ""))).isSome = true))
    (hfree1 : (s.db.tmplMappings.any (fun m =>
      m.instance_id == inst.id && m.product_tmpl_id == template.id)) = false)
    (hfree2 : ∀ q, matchByBarcode template idx = some q →
      (s.db.tmplMappings.any (fun m =>
        m.instance_id == inst.id && m.woo_product_id == q.id)) = false) :
    ∃ p, matchByBarcode template idx = some p ∧
      reconcileDecision s.cache template idx = .matchFound p ∧
      ∀ r s', syncOneTemplate inst o template idx s = (r, s') →
        mappedTo inst template p s'.db.tmplMappings ∧
        countPostProducts s'.calls = countPostProducts s.calls := by
  obtain ⟨p, hmatch⟩ := matchByBarcode_isSome_of_key template idx hkey
  refine ⟨p, hmatch, ?_, ?_⟩
  · unfold reconcileDecision
    rw [hnomap, hmatch]
  · intro r s' hrun
    have heq : syncOneTemplate inst o template idx s =
        createWooProduct inst o template (isVariableProduct template) idx s := by
      unfold syncOneTemplate
      rw [bind_apply]
      dsimp only [getS]
      rw [hnomap, hact]
      simp
    have heq2 : createWooProduct inst o template (isVariableProduct template)
        idx s = mapExistingWooProduct inst o template p s := by
      unfold createWooProduct
      rw [hmatch]
    rw [heq, heq2] at hrun
    constructor
    · exact mapExisting_adds_mapping inst o template p s r s' hfree1
        (hfree2 p hmatch) hrun
    · exact (mapExistingWooProduct_pres
        (primStable_calls
          (fun calls => countPostProducts calls = countPostProducts s.calls)
          (fun c => ∀ d, c ≠ RemoteCall.postProducts d)
          (fun calls c hok hQ => by
            show countPostProducts (calls ++ [c]) = countPostProducts s.calls
            rw [countPostProducts_append_nonPost calls c hok]; exact hQ))
        (callsOK_noPost inst)
        (fun i t w ty => createTemplateMapping_callsPres
          (fun calls => countPostProducts calls = countPostProducts s.calls)
          i t w ty)
        o template p) s r s' rfl hrun

theorem c2_witness :
    matchByBarcode tmplC2 idxC2 = some wooC2 ∧
    reconcileDecision ({} : RunState).cache tmplC2 idxC2 = .matchFound wooC2 ∧
    ((syncOneTemplate instC2 trivialOracle tmplC2 idxC2 {}).2.db.tmplMappings.any
      (fun tm => tm.instance_id == instC2.id &&
        tm.product_tmpl_id == tmplC2.id &&
        tm.woo_product_id == wooC2.id)) = true ∧
    countPostProducts
      (syncOneTemplate instC2 trivialOracle tmplC2 idxC2 {}).2.calls =
      countPostProducts ({} : RunState).calls := by
  obtain ⟨p, hm, hd, hcon⟩ := c2_reconciliation_maps_existing instC2
    trivialOracle tmplC2 idxC2 {} rfl rfl
    (Or.inr ⟨varC2, List.mem_singleton_self varC2, by decide, by decide⟩)
    rfl (fun q hq => rfl)
  have hcomp : matchByBarcode tmplC2 idxC2 = some wooC2 := by decide
  rw [hcomp] at hm
  have hp : wooC2 = p := Option.some.inj hm
  subst hp
  have h2 := hcon (syncOneTemplate instC2 trivialOracle tmplC2 idxC2 {}).1
    (syncOneTemplate instC2 trivialOracle tmplC2 idxC2 {}).2 rfl
  have h21 := h2.1
  unfold mappedTo at h21
  obtain ⟨tm, htm, e1, e2, e3⟩ := h21
  refine ⟨hcomp, hd, ?_, h2.2⟩
  exact List.any_eq_true.mpr ⟨tm, htm, by simp [e1, e2, e3]⟩

-- -----------------------------------------------------------------------
-- C5
-- -----------------------------------------------------------------------

/-- C5: stale-mapping recovery.  For a mapped template with a variant,
once the payload is built and the remote PUT response carries no truthy
id: the creation path is re-entered exactly when the response is a
structured not-found, and then the run continues as one unlink of the
stale mapping followed by one `cachePopTmpl` and exactly one
`createWooProduct` attempt for the same template with an empty index
(the unlinked store no longer contains the stale mapping); any other
failing response raises `Error actualizando` with the state as of the
PUT; and from a store satisfying the uniqueness invariant, every outcome
leaves at most one live TemplateMapping for (instance, template). -/
theorem c5_stale_mapping_recovery
    (inst : Instance) (o : Oracle) (template : Template)
    (mapping : TemplateMapping) (isVariable : Bool)
    (s s1 : RunState) (variant : Variant) (data : ProductPayload)
    (hvar : template.variants.head? = some variant)
    (hbuild : buildUpdatePayload inst o template variant isVariable s =
      (.ok data, s1))
    (hfail : optNatTruthy (o.putProduct mapping.woo_product_id data).rid =
      false) :
    (isNotFound (o.putProduct mapping.woo_product_id data) = true →
      updateWooProduct inst o template mapping isVariable s =
        createWooProduct inst o template isVariable []
          ((cachePopTmpl template.id
            ((unlinkTemplateMapping mapping.mid
              ((emit (.putProduct mapping.woo_product_id data) s1).2)).2)).2)) ∧
    (∀ s0 : RunState,
      mapping ∉ ((unlinkTemplateMapping mapping.mid s0).2).db.tmplMappings) ∧
    (isNotFound (o.putProduct mapping.woo_product_id data) = false →
      updateWooProduct inst o template mapping isVariable s =
        (.error "Error actualizando",
         (emit (.putProduct mapping.woo_product_id data) s1).2)) ∧
    (s.db.Uniq → ∀ r s',
      updateWooProduct inst o template mapping isVariable s = (r, s') →
      tmplCountFor s'.db inst.id template.id ≤ 1) := by
  have hred : ∀ (g : M Unit),
      (if optNatTruthy (o.putProduct mapping.woo_product_id data).rid then
        (if isVariable then updateVariations inst o template mapping
         else pure ())
       else if isNotFound (o.putProduct mapping.woo_product_id data) then do
         unlinkTemplateMapping mapping.mid
         cachePopTmpl template.id
         createWooProduct inst o template isVariable []
       else mThrow "Error actualizando") = g →
      updateWooProduct inst o template mapping isVariable s =
        g ((emit (.putProduct mapping.woo_product_id data) s1).2) := by
    intro g hg
    unfold updateWooProduct
    rw [hvar]
    dsimp only
    rw [bind_apply, hbuild]
    dsimp only
    rw [bind_apply]
    rw [show (emit (.putProduct mapping.woo_product_id data) s1) =
      (.ok (), (emit (.putProduct mapping.woo_product_id data) s1).2)
      from rfl]
    dsimp only
    rw [hg]
  refine ⟨?_, ?_, ?_, ?_⟩
  · intro h404
    rw [hred _ rfl]
    rw [hfail, h404]
    simp only [Bool.false_eq_true, if_false, if_true]
    rw [bind_apply]
    rw [show (unlinkTemplateMapping mapping.mid
        ((emit (.putProduct mapping.woo_product_id data) s1).2)) =
      (.ok (), (unlinkTemplateMapping mapping.mid
        ((emit (.putProduct mapping.woo_product_id data) s1).2)).2)
      from rfl]
    dsimp only
    rw [bind_apply]
    rw [show (cachePopTmpl template.id
        ((unlinkTemplateMapping mapping.mid
          ((emit (.putProduct mapping.woo_product_id data) s1).2)).2)) =
      (.ok (), (cachePopTmpl template.id
        ((unlinkTemplateMapping mapping.mid
          ((emit (.putProduct mapping.woo_product_id data) s1).2)).2)).2)
      from rfl]
  · intro s0
    simp [unlinkTemplateMapping, modifyS, List.mem_filter]
  · intro h404
    rw [hred _ rfl]
    rw [hfail, h404]
    simp only [Bool.false_eq_true, if_false]
    rfl
  · intro hU r s' hrun
    have hpres : MPreserves (fun st => st.db.Uniq)
        (updateWooProduct inst o template mapping isVariable) :=
      updateWooProduct_pres primStable_uniq (callsOK_true inst)
        (fun i t w ty => createTemplateMapping_uniqPres i t w ty)
        (fun d => trivial) (fun tmid => unlinkTemplateMapping_uniqPres tmid)
        o template mapping isVariable
    exact tmplCountFor_le_one s'.db inst.id template.id
      (hpres s r s' hU hrun)

theorem c5_witness :
    isNotFound (oC5.putProduct mapC5.woo_product_id dataC5) = true ∧
    updateWooProduct instC5 oC5 tmplC5 mapC5 false sC5 =
      createWooProduct instC5 oC5 tmplC5 false []
        ((cachePopTmpl tmplC5.id
          ((unlinkTemplateMapping mapC5.mid
            ((emit (.putProduct mapC5.woo_product_id dataC5) sC5).2)).2)).2) ∧
    mapC5 ∉ ((unlinkTemplateMapping mapC5.mid sC5).2).db.tmplMappings ∧
    tmplCountFor (updateWooProduct instC5 oC5 tmplC5 mapC5 false sC5).2.db
      instC5.id tmplC5.id ≤ 1 := by
  have hU : sC5.db.Uniq :=
    ⟨List.Pairwise.cons (fun b hb => absurd hb (List.not_mem_nil b))
      List.Pairwise.nil,
     List.Pairwise.nil, List.Pairwise.nil, List.Pairwise.nil,
     List.Pairwise.nil⟩
  have h := c5_stale_mapping_recovery instC5 oC5 tmplC5 mapC5 false sC5 sC5
    varC5 dataC5 rfl rfl rfl
  exact ⟨rfl, h.1 rfl, h.2.1 sC5,
    h.2.2.2 hU (updateWooProduct instC5 oC5 tmplC5 mapC5 false sC5).1
      (updateWooProduct instC5 oC5 tmplC5 mapC5 false sC5).2 rfl⟩

-- -----------------------------------------------------------------------
-- C8
-- -----------------------------------------------------------------------

/-- C8 counterexample: with the budget `MAX_CRON_SECONDS = 3000` and a
per-template cost of 3001 seconds, the run does NOT stop before the
budget is exceeded: the first of the two templates is processed, the
elapsed total reaches 3001 > 3000, and only then does the loop halt —
one of two templates processed, truncated flag set, truncated summary
logged, no error surfaced. -/
theorem c8_counterexample :
    costC8 tmplC8a.id > MAX_CRON_SECONDS ∧
    (runChunkTemplates instC8 trivialOracle [] costC8 tmplsC8 0 0 0
      ({} : RunState)).1 = .ok (3001, 1, 0, true) ∧
    3001 > MAX_CRON_SECONDS ∧
    (runFullSync instC8 trivialOracle costC8 tmplsC8 [] ({} : RunState)).1 =
      .ok (1, 0, true) ∧
    (runFullSync instC8 trivialOracle costC8 tmplsC8 [] ({} : RunState)).2.db.logs =
      [{ instance_id := 9, sync_type := "full", status := "success",
         product_tmpl_id := none, message := summaryMsg 3001 1 0 true }] :=
  ⟨by decide, rfl, by decide, rfl, rfl⟩

/-- C8 (amended): the driver checks the elapsed-time budget both between
templates inside a chunk and between chunks; once the elapsed total has
exceeded the budget, the very next check halts the run — processing
nothing further, leaving the state untouched from that point, marking the
run truncated and surfacing no error (rather than stopping before the
budget is exceeded); and every full-sync run finishes with an `ok` result
and writes a summary log whose message carries the truncation marker
exactly when the run was cut short. -/
theorem c8_time_budget_truncation :
    (∀ (inst : Instance) (o : Oracle) (skuIdx : SkuIndex) (cost : Nat → Nat)
      (t : Template) (ts : List Template) (elapsed success errors : Nat)
      (s : RunState), elapsed > MAX_CRON_SECONDS →
      runChunkTemplates inst o skuIdx cost (t :: ts) elapsed success errors s
        = (.ok (elapsed, success, errors, true), s)) ∧
    (∀ (inst : Instance) (o : Oracle) (skuIdx : SkuIndex) (cost : Nat → Nat)
      (scope : List Template) (c : List Template)
      (cs : List (List Template)) (elapsed success errors : Nat)
      (skipped : Bool) (s : RunState), elapsed > MAX_CRON_SECONDS →
      runChunks inst o skuIdx cost scope (c :: cs) elapsed success errors
        skipped s = (.ok (elapsed, success, errors, true), s)) ∧
    (∀ (inst : Instance) (o : Oracle) (cost : Nat → Nat)
      (templates : List Template) (skuIdx : SkuIndex) (s : RunState),
      ∃ (su er : Nat) (tr : Bool) (e : Nat) (s1 : RunState),
      runFullSync inst o cost templates skuIdx s = (.ok (su, er, tr), s1) ∧
      s1.db.logs.getLast? = some
        { instance_id := inst.id, sync_type := "full", status := "success",
          product_tmpl_id := none, message := summaryMsg e su er tr }) := by
  refine ⟨?_, ?_, ?_⟩
  · intro inst o skuIdx cost t ts elapsed success errors s h
    rw [runChunkTemplates]
    rw [if_pos h]
    rfl
  · intro inst o skuIdx cost scope c cs elapsed success errors skipped s h
    rw [runChunks]
    rw [if_pos h]
    rfl
  · intro inst o cost templates skuIdx s
    unfold runFullSync
    rw [bind_apply]
    rw [show (modifyS fun st =>
        { st with cache := buildCache inst st.db templates }) s =
      (.ok (), { s with cache := buildCache inst s.db templates }) from rfl]
    dsimp only
    rw [bind_apply]
    dsimp only [getS]
    rw [bind_apply]
    obtain ⟨v, s1, hv⟩ := runChunks_ok inst o
      (if (buildCache inst s.db templates).unmapped_tmpl_ids.isEmpty then
        ([] : SkuIndex) else skuIdx)
      cost templates (chunkList CHUNK_SIZE templates) 0 0 0 false
      { s with cache := buildCache inst s.db templates }
    rw [hv]
    dsimp only
    refine ⟨v.2.1, v.2.2.1, v.2.2.2, v.1, _, rfl, ?_⟩
    dsimp only
    exact List.getLast?_concat _

theorem c8_witness :
    3001 > MAX_CRON_SECONDS ∧
    runChunkTemplates instC8 trivialOracle [] costC8 tmplsC8 3001 1 0
      ({} : RunState) = (.ok (3001, 1, 0, true), ({} : RunState)) :=
  ⟨by decide,
    c8_time_budget_truncation.1 instC8 trivialOracle [] costC8 tmplC8a
      [tmplC8b] 3001 1 0 ({} : RunState) (by decide)⟩

end WooSync
